import Mathlib

/-!
Verification development for the Glue language runtime
(lexer / parser / tree-walking evaluator / HTTP dispatcher).

The C++ sources are embedded shallowly:

* machine `int` is modelled as unbounded `Int` (no claim depends on
  32-bit wraparound), C++ `float` is modelled as `ℚ` (no claim depends
  on rounding), `std::string` as `String`;
* the `Value` variant of executor.h becomes an inductive type whose
  compound arms own their contents; the C++ representation stores a
  `(tag, pointer)` pair into a heap allocation, which only matters for
  aliasing and for `==` on compound values, neither of which any claim
  touches;
* every fallible C++ function that throws `ExecutionError` returns
  `Except ExecErr` here, with one `ExecErr` constructor per family of
  throw sites;
* statement execution can diverge (`while`, `for`), so the statement
  executor takes a fuel argument; running out of fuel is a distinguished
  artificial error with no C++ counterpart.  Expression evaluation and
  the pair loops of `each` always terminate and take no fuel.
-/

namespace Glue

/-! ## Values (executor.h)

The C++ `Value` is `std::variant<int, float, std::string, bool,
ComplexValue>` where `ComplexValue = std::pair<int, void*>` tags a heap
allocated `std::vector<Value>` (tag 1) or
`std::unordered_map<std::string, Value>` (tag 2). -/

inductive Value where
  | int (n : Int)
  | float (q : ℚ)
  | str (s : String)
  | bool (b : Bool)
  | arr (elems : List Value)
  | obj (fields : List (String × Value))

/-- Macro NULL_VALUE in executor.h is literally the integer 0. -/
def NULL_VALUE : Value := .int 0

/-- A default constructed C++ `Value` holds the first variant
alternative, a value-initialized `int`, i.e. the integer 0. -/
def defaultValue : Value := .int 0

/-- Helper get_type_name of executor.cpp. -/
def get_type_name : Value → String
  | .int _ => "int"
  | .float _ => "float"
  | .str _ => "string"
  | .bool _ => "bool"
  | _ => "unknown"

/-! ## Execution errors

The source has a single exception class carrying a message; each
constructor below stands for one family of throw sites, with the
original message kept where it is informative. -/

inductive ExecErr where
  /-- thrown at the top of evaluate_expression and
  evaluate_address_index when the node pointer is null -/
  | nullExpression
  /-- thrown by get_value when the variant holds another alternative -/
  | typeMismatch (expected got : String)
  /-- operator/operand type errors such as "Addition not supported for
  types: ..." or "Array index must be an integer" -/
  | typeError (msg : String)
  /-- thrown by the DIV case for an integer or float zero divisor -/
  | divisionByZero
  /-- thrown by the ARRAY_ACCESS case for a negative index -/
  | negativeArrayIndex (index : Int)
  /-- thrown by get_array_element when index is at least the size -/
  | arrayIndexOutOfBounds (index size : Nat)
  /-- malformed AST nodes, e.g. "Invalid assignment target" -/
  | invalidNode (msg : String)
  /-- default branches: "Unsupported expression/statement" -/
  | unsupported (msg : String)
  /-- artifact of the fuelled embedding of statement execution; a
  terminating C++ run corresponds to a large enough fuel -/
  | fuelExhausted
  deriving Repr, DecidableEq

/-- Helper is_type of executor.cpp, one tester per alternative. -/
def Value.isInt : Value → Bool | .int _ => true | _ => false

def Value.isFloat : Value → Bool | .float _ => true | _ => false

def Value.isStr : Value → Bool | .str _ => true | _ => false

def Value.isBool : Value → Bool | .bool _ => true | _ => false

/-- Helper get_value of executor.cpp at type int. -/
def getInt : Value → Except ExecErr Int
  | .int n => .ok n
  | v => .error (.typeMismatch "int" (get_type_name v))

/-- Helper get_value of executor.cpp at type bool. -/
def getBool : Value → Except ExecErr Bool
  | .bool b => .ok b
  | v => .error (.typeMismatch "bool" (get_type_name v))

/-- The idiom of the arithmetic cases:
is_type int(x) ? get_value int(x) : get_value float(x).
An int is widened; anything else must already be a float. -/
def readAsFloat : Value → Except ExecErr ℚ
  | .int n => .ok (n : ℚ)
  | .float q => .ok q
  | v => .error (.typeMismatch "float" (get_type_name v))

/-- Helper cast_to_array of executor.cpp: the value must hold a
ComplexValue with tag 1 (the two throw sites share one message). -/
def cast_to_array : Value → Except ExecErr (List Value)
  | .arr xs => .ok xs
  | _ => .error (.typeError "Array access on non-array type")

/-- Helper get_array_element of executor.cpp. -/
def get_array_element (v : Value) (index : Nat) : Except ExecErr Value := do
  let xs ← cast_to_array v
  if h : index < xs.length then .ok (xs.get ⟨index, h⟩)
  else .error (.arrayIndexOutOfBounds index xs.length)

/-! Association-list primitives standing for the std::unordered_map
operations used on both environments and object values.  Hash iteration
order is not modelled; no claim observes it. -/

/-- Lookup without insertion, the map.find idiom. -/
def envFind (m : List (String × Value)) (k : String) : Option Value :=
  m.lookup k

/-- Upsert, the map insertion idiom written as an index assignment. -/
def envSet (m : List (String × Value)) (k : String) (v : Value) :
    List (String × Value) :=
  match m with
  | [] => [(k, v)]
  | (k0, v0) :: rest =>
      if k0 = k then (k, v) :: rest else (k0, v0) :: envSet rest k v

/-- Helper get_object_field of executor.cpp: the map is copied locally
and read with the index operator, which default-constructs an absent
entry, so a missing key produces the integer 0. -/
def get_object_field (v : Value) (key : String) : Except ExecErr Value :=
  match v with
  | .obj fields => .ok ((fields.lookup key).getD defaultValue)
  | _ => .error (.typeError "Field access on non-object type")

/-- Variant equality used by the EQ and NEQ cases.  Scalar alternatives
compare by value exactly as in C++.  For compound values C++ compares
the (tag, pointer) pair, i.e. allocation identity, which the tree model
cannot express; structural equality is used instead, and no claim in
this development evaluates equality of compound values. -/
def valueEq : Value → Value → Bool
  | .int a, .int b => a = b
  | .float a, .float b => a = b
  | .str a, .str b => a = b
  | .bool a, .bool b => a = b
  | .arr xs, .arr ys =>
      xs.length = ys.length &&
      (xs.attach.zip ys).all (fun p => valueEq p.1.1 p.2)
  | .obj xs, .obj ys =>
      xs.length = ys.length &&
      (xs.attach.zip ys).all (fun p => p.1.1.1 = p.2.1 && valueEq p.1.1.2 p.2.2)
  | _, _ => false
termination_by v _ => sizeOf v
decreasing_by
  · have h1 := List.sizeOf_lt_of_mem p.1.2
    simp only [Value.arr.sizeOf_spec]
    omega
  · obtain ⟨⟨⟨k, v⟩, hmem⟩, w⟩ := p
    have h1 := List.sizeOf_lt_of_mem hmem
    simp only [Value.obj.sizeOf_spec, Prod.mk.sizeOf_spec] at h1 ⊢
    omega

/-! ## JSON (the nlohmann json values exchanged by the fetch operator)

json.hpp is a third-party library that is not part of src/; the JSON
document tree is therefore modelled from the spec as a mutual inductive
family (mutual rather than List-nested so that the conversions below
are structural). -/

mutual
inductive Json where
  | null
  | jbool (b : Bool)
  | jint (n : Int)
  | jfloat (q : ℚ)
  | jstr (s : String)
  | jarr (elems : JsonList)
  | jobj (fields : JsonFields)
inductive JsonList where
  | nil
  | cons (hd : Json) (tl : JsonList)
inductive JsonFields where
  | nil
  | cons (key : String) (val : Json) (tl : JsonFields)
end

mutual
/-- Function json_to_value of executor.h: null maps to integer 0, a
fractional number to float, containers are converted recursively. -/
def json_to_value : Json → Value
  | .null => .int 0
  | .jbool b => .bool b
  | .jint n => .int n
  | .jfloat q => .float q
  | .jstr s => .str s
  | .jarr es => .arr (json_to_values es)
  | .jobj fs => .obj (json_to_value_map fs)
/-- Function json_to_values of executor.h. -/
def json_to_values : JsonList → List Value
  | .nil => []
  | .cons hd tl => json_to_value hd :: json_to_values tl
/-- Function json_to_value_map of executor.h (hash order not modelled). -/
def json_to_value_map : JsonFields → List (String × Value)
  | .nil => []
  | .cons k v tl => (k, json_to_value v) :: json_to_value_map tl
end

/-- Function to_json of executor.h, the reverse Value-to-JSON mapping
used to serialize an endpoint result: a scalar alternative becomes the
corresponding JSON value, a ComplexValue with tag 1 recurses over the
vector elements in order and one with tag 2 over the map entries
(hash order not modelled). -/
def valueToJson : Value → Json
  | .int n => .jint n
  | .float q => .jfloat q
  | .str s => .jstr s
  | .bool b => .jbool b
  | .arr xs => .jarr (xs.attach.foldr (fun e acc => .cons (valueToJson e.1) acc) .nil)
  | .obj fs => .jobj (fs.attach.foldr (fun e acc => .cons e.1.1 (valueToJson e.1.2) acc) .nil)
termination_by v => sizeOf v
decreasing_by
  · have h1 := List.sizeOf_lt_of_mem e.2
    simp only [Value.arr.sizeOf_spec]
    omega
  · obtain ⟨⟨k, v⟩, hmem⟩ := e
    have h1 := List.sizeOf_lt_of_mem hmem
    simp only [Value.obj.sizeOf_spec, Prod.mk.sizeOf_spec] at h1 ⊢
    omega

mutual
/-- Modelled from the spec: a rendering of the JSON document produced
by the dump method of json.hpp (third-party, not in src/); the exact
indentation of dump(4) is not reproduced, only an injective rendering
of the tree.  No claim inspects this string. -/
def jsonDump : Json → String
  | .null => "null"
  | .jbool b => if b then "true" else "false"
  | .jint n => toString n
  | .jfloat q => toString q
  | .jstr s => "\"" ++ s ++ "\""
  | .jarr es => "[" ++ jsonDumpList es ++ "]"
  | .jobj fs => "\x7b" ++ jsonDumpFields fs ++ "\x7d"
/-- List part of the JSON rendering. -/
def jsonDumpList : JsonList → String
  | .nil => ""
  | .cons hd .nil => jsonDump hd
  | .cons hd tl => jsonDump hd ++ "," ++ jsonDumpList tl
/-- Object part of the JSON rendering. -/
def jsonDumpFields : JsonFields → String
  | .nil => ""
  | .cons k v .nil => "\"" ++ k ++ "\":" ++ jsonDump v
  | .cons k v tl => "\"" ++ k ++ "\":" ++ jsonDump v ++ "," ++ jsonDumpFields tl
end

/-- Function value_to_string of executor.h: serialize through the JSON
mapping and dump the document. -/
def value_to_string (v : Value) : String := jsonDump (valueToJson v)

/-! ## The outside world seen by the fetch operator -/

/-- The effects outside the interpreter: what the network returns for a
GET to a URL (none models any exception inside http_get: bad URL,
resolution or connection failure), and what json::parse makes of a
response body (none models a thrown json::parse_error). -/
structure World where
  net : String → Option String
  parseJson : String → Option Json

/-- Function http_get of executor.cpp: its try block either yields the
response body or, on any exception, logs and returns the empty
string. -/
def http_get (w : World) (url : String) : String :=
  (w.net url).getD ""

/-- A world with no reachable servers and a parser that rejects
everything, used for claims that never exercise the network. -/
def emptyWorld : World := ⟨fun _ => none, fun _ => none⟩

/-! ## Expression AST (parser.h, class ExprNode)

The C++ node stores an op_type tag with optional left and right child
pointers and auxiliary lists; here each op tag becomes a constructor
whose children keep their optionality, because several evaluator
behaviours (notably for NOT) hinge on null children.  The family is
mutual rather than List- or Option-nested so that the evaluator below
is structurally recursive.  Constant nodes keep the raw lexeme exactly
as ExprNode::value does. -/

mutual
inductive Expr where
  | constInt (value : String)
  | constFloat (value : String)
  | constString (value : String)
  | identifier (value : String)
  | add (left right : ExprOpt)
  | sub (left right : ExprOpt)
  | mul (left right : ExprOpt)
  | div (left right : ExprOpt)
  | eq (left right : ExprOpt)
  | neq (left right : ExprOpt)
  | lt (left right : ExprOpt)
  | gt (left right : ExprOpt)
  | le (left right : ExprOpt)
  | ge (left right : ExprOpt)
  | and (left right : ExprOpt)
  | or (left right : ExprOpt)
  | not (left right : ExprOpt)
  | assign (left right : ExprOpt)
  | arrayLiteral (array_elements : ExprList)
  | arrayAccess (left right : ExprOpt)
  | dot (left right : ExprOpt)
  | objectLiteral (object_members : MemberList)
  | curl (left right : ExprOpt)
  | inOp (parameters : List String) (value : String)
inductive ExprOpt where
  | none
  | some (e : Expr)
inductive ExprList where
  | nil
  | cons (hd : Expr) (tl : ExprList)
inductive MemberList where
  | nil
  | cons (key : String) (val : Expr) (tl : MemberList)
end

/-- Digit run to number, the core of the std::stoi and std::stof calls
applied to numeric lexemes. -/
def digitsToNat (cs : List Char) : Nat :=
  cs.foldl (fun acc c => acc * 10 + (c.toNat - 48)) 0

/-- std::stoi on the lexemes this interpreter feeds it: an optional
minus sign followed by decimal digits (the lexer only produces digit
runs; a leading minus can only occur in a hand-built AST node). -/
def stoi (s : String) : Int :=
  match s.data with
  | '-' :: rest => - (digitsToNat rest : Int)
  | cs => (digitsToNat cs : Int)

/-- std::stof on the float lexemes the lexer produces
(digits [ . digits ] [ e [ sign ] digits ]), landing in the exact
rationals that model C++ floats. -/
def stof (s : String) : ℚ :=
  let parts := s.split (fun c => c == 'e' || c == 'E')
  let mant := (parts.headD s)
  let ex : Int := match parts with
    | [_, e] => stoi e
    | _ => 0
  let ipfp := mant.split (fun c => c == '.')
  let ip := ipfp.headD mant
  let fp := (ipfp.drop 1).headD ""
  ((digitsToNat ip.data : ℚ) +
    (digitsToNat fp.data : ℚ) / ((10 : ℚ) ^ fp.length)) * (10 : ℚ) ^ ex

/-- Member Executor::evaluate_address_index: the right-hand side of a
dot is read syntactically, a CONSTANT_INT lexeme through std::stoi and
an IDENTIFIER as its name; every other op type throws.  (Its null-node
check is handled by the caller's guard here, since the DOT case only
calls it on a non-null right child.) -/
def evaluate_address_index : Expr → Except ExecErr Value
  | .constInt value => .ok (.int (stoi value))
  | .identifier value => .ok (.str value)
  | _ => .error (.invalidNode "unexpected op type in address index")

/-- An environment is the variables member of the executor. -/
abbrev Env := List (String × Value)

mutual
/-- Member Executor::evaluate_expression of executor.cpp.  The mutable
variables map is threaded through explicitly: the result pairs the
value of the expression with the environment after evaluation. -/
def evaluate_expression (w : World) (env : Env) : Expr → Except ExecErr (Value × Env)
  | .constInt value => .ok (.int (stoi value), env)
  | .constFloat value => .ok (.float (stof value), env)
  | .constString value => .ok (.str value, env)
  | .identifier value =>
      match envFind env value with
      | Option.some v => .ok (v, env)
      | Option.none => .ok (.int 0, env)
  | .add l r => do
      let (left_val, env1) ← evaluate_expression_opt w env l
      let (right_val, env2) ← evaluate_expression_opt w env1 r
      match left_val, right_val with
      | .int a, .int b => .ok (.int (a + b), env2)
      | _, _ =>
        if left_val.isFloat || right_val.isFloat then do
          let a ← readAsFloat left_val
          let b ← readAsFloat right_val
          .ok (.float (a + b), env2)
        else match left_val, right_val with
          | .str a, .str b => .ok (.str (a ++ b), env2)
          | _, _ => .error (.typeError ("Addition not supported for types: "
              ++ get_type_name left_val ++ " and " ++ get_type_name right_val))
  | .sub l r => do
      let (left_val, env1) ← evaluate_expression_opt w env l
      let (right_val, env2) ← evaluate_expression_opt w env1 r
      match left_val, right_val with
      | .int a, .int b => .ok (.int (a - b), env2)
      | _, _ =>
        if left_val.isFloat || right_val.isFloat then do
          let a ← readAsFloat left_val
          let b ← readAsFloat right_val
          .ok (.float (a - b), env2)
        else .error (.typeError ("Subtraction not supported for types: "
            ++ get_type_name left_val ++ " and " ++ get_type_name right_val))
  | .mul l r => do
      let (left_val, env1) ← evaluate_expression_opt w env l
      let (right_val, env2) ← evaluate_expression_opt w env1 r
      match left_val, right_val with
      | .int a, .int b => .ok (.int (a * b), env2)
      | _, _ =>
        if left_val.isFloat || right_val.isFloat then do
          let a ← readAsFloat left_val
          let b ← readAsFloat right_val
          .ok (.float (a * b), env2)
        else .error (.typeError ("Multiplication not supported for types: "
            ++ get_type_name left_val ++ " and " ++ get_type_name right_val))
  | .div l r => do
      let (left_val, env1) ← evaluate_expression_opt w env l
      let (right_val, env2) ← evaluate_expression_opt w env1 r
      match left_val, right_val with
      | .int a, .int b =>
          if b = 0 then .error .divisionByZero
          else .ok (.int (a.tdiv b), env2)
      | _, _ =>
        if left_val.isFloat || right_val.isFloat then do
          let a ← readAsFloat left_val
          let b ← readAsFloat right_val
          if b = 0 then .error .divisionByZero
          else .ok (.float (a / b), env2)
        else .error (.typeError ("Division not supported for types: "
            ++ get_type_name left_val ++ " and " ++ get_type_name right_val))
  | .eq l r => do
      let (left_val, env1) ← evaluate_expression_opt w env l
      let (right_val, env2) ← evaluate_expression_opt w env1 r
      .ok (.bool (valueEq left_val right_val), env2)
  | .neq l r => do
      let (left_val, env1) ← evaluate_expression_opt w env l
      let (right_val, env2) ← evaluate_expression_opt w env1 r
      .ok (.bool (!(valueEq left_val right_val)), env2)
  | .lt l r => do
      let (left_val, env1) ← evaluate_expression_opt w env l
      let (right_val, env2) ← evaluate_expression_opt w env1 r
      match left_val, right_val with
      | .int a, .int b => .ok (.bool (decide (a < b)), env2)
      | _, _ =>
        if left_val.isFloat || right_val.isFloat then do
          let a ← readAsFloat left_val
          let b ← readAsFloat right_val
          .ok (.bool (decide (a < b)), env2)
        else match left_val, right_val with
          | .str a, .str b => .ok (.bool (decide (a < b)), env2)
          | _, _ => .error (.typeError ("Less than comparison not supported for types: "
              ++ get_type_name left_val ++ " and " ++ get_type_name right_val))
  | .gt l r => do
      let (left_val, env1) ← evaluate_expression_opt w env l
      let (right_val, env2) ← evaluate_expression_opt w env1 r
      match left_val, right_val with
      | .int a, .int b => .ok (.bool (decide (b < a)), env2)
      | _, _ =>
        if left_val.isFloat || right_val.isFloat then do
          let a ← readAsFloat left_val
          let b ← readAsFloat right_val
          .ok (.bool (decide (b < a)), env2)
        else match left_val, right_val with
          | .str a, .str b => .ok (.bool (decide (b < a)), env2)
          | _, _ => .error (.typeError ("Greater than comparison not supported for types: "
              ++ get_type_name left_val ++ " and " ++ get_type_name right_val))
  | .le l r => do
      let (left_val, env1) ← evaluate_expression_opt w env l
      let (right_val, env2) ← evaluate_expression_opt w env1 r
      match left_val, right_val with
      | .int a, .int b => .ok (.bool (decide (a ≤ b)), env2)
      | _, _ =>
        if left_val.isFloat || right_val.isFloat then do
          let a ← readAsFloat left_val
          let b ← readAsFloat right_val
          .ok (.bool (decide (a ≤ b)), env2)
        else match left_val, right_val with
          | .str a, .str b => .ok (.bool (decide (a ≤ b)), env2)
          | _, _ => .error (.typeError ("Less than or equal comparison not supported for types: "
              ++ get_type_name left_val ++ " and " ++ get_type_name right_val))
  | .ge l r => do
      let (left_val, env1) ← evaluate_expression_opt w env l
      let (right_val, env2) ← evaluate_expression_opt w env1 r
      match left_val, right_val with
      | .int a, .int b => .ok (.bool (decide (b ≤ a)), env2)
      | _, _ =>
        if left_val.isFloat || right_val.isFloat then do
          let a ← readAsFloat left_val
          let b ← readAsFloat right_val
          .ok (.bool (decide (b ≤ a)), env2)
        else match left_val, right_val with
          | .str a, .str b => .ok (.bool (decide (b ≤ a)), env2)
          | _, _ => .error (.typeError ("Greater than or equal comparison not supported for types: "
              ++ get_type_name left_val ++ " and " ++ get_type_name right_val))
  | .and l r => do
      let (left_val, env1) ← evaluate_expression_opt w env l
      let (right_val, env2) ← evaluate_expression_opt w env1 r
      match left_val, right_val with
      | .bool a, .bool b => .ok (.bool (a && b), env2)
      | _, _ => .error (.typeError ("Logical AND not supported for types: "
          ++ get_type_name left_val ++ " and " ++ get_type_name right_val))
  | .or l r => do
      let (left_val, env1) ← evaluate_expression_opt w env l
      let (right_val, env2) ← evaluate_expression_opt w env1 r
      match left_val, right_val with
      | .bool a, .bool b => .ok (.bool (a || b), env2)
      | _, _ => .error (.typeError ("Logical OR not supported for types: "
          ++ get_type_name left_val ++ " and " ++ get_type_name right_val))
  | .not l _ => do
      -- the NOT case of evaluate_expression reads expr->left; the
      -- parser stores the operand of a bang in the right child
      let (v, env1) ← evaluate_expression_opt w env l
      match v with
      | .bool b => .ok (.bool (!b), env1)
      | _ => .error (.typeError ("Logical NOT not supported for type: " ++ get_type_name v))
  | .assign l r =>
      match l with
      | .some (.identifier var_name) => do
          let (v, env1) ← evaluate_expression_opt w env r
          .ok (v, envSet env1 var_name v)
      | _ => .error (.invalidNode "Invalid assignment target")
  | .arrayLiteral elems => do
      let (vs, env1) ← evaluate_expression_list w env elems
      .ok (.arr vs, env1)
  | .arrayAccess l r =>
      match l, r with
      | .some le, .some re => do
          let (array_val, env1) ← evaluate_expression w env le
          let (index_val, env2) ← evaluate_expression w env1 re
          match index_val with
          | .int index =>
              if index < 0 then .error (.negativeArrayIndex index)
              else do
                let v ← get_array_element array_val index.toNat
                .ok (v, env2)
          | _ => .error (.typeError "Array index must be an integer")
      | _, _ => .error (.invalidNode "Invalid array access expression")
  | .dot l r =>
      match l, r with
      | .some le, .some re => do
          let (obj_val, env1) ← evaluate_expression w env le
          let index_val ← evaluate_address_index re
          match index_val with
          | .int index =>
              if index < 0 then .ok (NULL_VALUE, env1)
              else do
                let v ← get_array_element obj_val index.toNat
                .ok (v, env1)
          | .str index => do
              let v ← get_object_field obj_val index
              .ok (v, env1)
          | _ => .error (.typeError "Index value must be int or string")
      | _, _ => .error (.invalidNode "Invalid array access expression")
  | .objectLiteral members => do
      let (fields, env1) ← evaluate_object_members w [] env members
      .ok (.obj fields, env1)
  | .curl l r =>
      match l, r with
      | .some le, .some re =>
          match le with
          | .identifier name => do
              let (_data_val, env1) ← evaluate_expression w env le
              let (url_val, env2) ← evaluate_expression w env1 re
              match url_val with
              | .str url =>
                  let ret := http_get w url
                  match w.parseJson ret with
                  | Option.some j =>
                      let jval := json_to_value j
                      .ok (jval, envSet env2 name jval)
                  | Option.none => .ok (.int 0, env2)
              | _ => .error (.typeError "curl path must be a string")
          | _ => .error (.invalidNode "Invalid assignment target")
      | _, _ => .error (.invalidNode "Invalid curl expression")
  | .inOp _ _ => .error (.unsupported "Unsupported expression: IN")
/-- The evaluate_expression calls on possibly-null child pointers; a
null node throws "Null expression" at the top of the function. -/
def evaluate_expression_opt (w : World) (env : Env) : ExprOpt → Except ExecErr (Value × Env)
  | .none => .error .nullExpression
  | .some e => evaluate_expression w env e
/-- The ARRAY_LITERAL loop: elements evaluated left to right, each
seeing the environment mutations of the previous ones. -/
def evaluate_expression_list (w : World) (env : Env) : ExprList → Except ExecErr (List Value × Env)
  | .nil => .ok ([], env)
  | .cons hd tl => do
      let (v, env1) ← evaluate_expression w env hd
      let (vs, env2) ← evaluate_expression_list w env1 tl
      .ok (v :: vs, env2)
/-- The OBJECT_LITERAL loop: members are evaluated in turn and
assigned into the fresh map (the C++ map iterates members in hash
order; order is unobservable in the claims below). -/
def evaluate_object_members (w : World) (acc : List (String × Value)) (env : Env) :
    MemberList → Except ExecErr (List (String × Value) × Env)
  | .nil => .ok (acc, env)
  | .cons k vexpr tl => do
      let (v, env1) ← evaluate_expression w env vexpr
      evaluate_object_members w (envSet acc k v) env1 tl
end

/-! ## Statement AST (parser.h, class StmtNode)

The C++ node keeps a children vector, an optional condition, an
optional principal expression and an expression list; the constructors
below keep exactly the fields each statement kind reads. -/

inductive Stmt where
  | expression (expr : ExprOpt)
  | ifStmt (condition : ExprOpt) (children : List Stmt)
  | whileStmt (condition : ExprOpt) (children : List Stmt)
  | forStmt (condition : ExprOpt) (children : List Stmt)
  | eachStmt (expr : ExprOpt) (condition : ExprOpt) (children : List Stmt)
  | returnStmt (expr : ExprOpt)
  | block (children : List Stmt)
  | declaration (expr : ExprOpt)
  | empty
  | printStmt (exprs : List Expr)

/-- The per-request mutable state of class Executor: the variables
map (field vars, since the word variables is reserved in Lean), the
result slot (default constructed, i.e. integer 0), the
returning flag, and the values printed so far (the stream rendering of
print output is not modelled; the claims never read it). -/
structure ExecState where
  vars : Env
  result : Value
  returning : Bool
  output : List Value

/-- A freshly constructed Executor. -/
def initExecState : ExecState := ⟨[], defaultValue, false, []⟩

mutual
/-- Member Executor::execute_statement of executor.cpp.  The fuel
argument only bounds the unbounded recursions (loop iterations and
block nesting); a C++ run that terminates is reproduced by any
sufficiently large fuel. -/
def execute_statement (w : World) : Nat → ExecState → Stmt → Except ExecErr ExecState
  | 0, _, _ => .error .fuelExhausted
  | fuel+1, st, stmt =>
    match stmt with
    | .expression e =>
        match e with
        | .none => .ok st
        | .some ex => do
            let (_, env1) ← evaluate_expression w st.vars ex
            .ok { st with vars := env1 }
    | .block children => execute_block w fuel st children
    | .ifStmt cond children =>
        match cond with
        | .none => .error (.invalidNode "If statement missing condition")
        | .some c => do
            let (cond_val, env1) ← evaluate_expression w st.vars c
            let st1 := { st with vars := env1 }
            match cond_val with
            | .bool b =>
                if b then
                  match children with
                  | c0 :: _ => execute_statement w fuel st1 c0
                  | [] => .ok st1
                else
                  match children with
                  | _ :: c1 :: _ => execute_statement w fuel st1 c1
                  | _ => .ok st1
            | _ => .error (.typeError "If condition must be a boolean")
    | .whileStmt cond children =>
        match cond with
        | .none => .error (.invalidNode "While statement missing condition")
        | .some c => do
            let (cond_val, env1) ← evaluate_expression w st.vars c
            let st1 := { st with vars := env1 }
            match cond_val with
            | .bool true => do
                let st2 ←
                  match children with
                  | c0 :: _ => execute_statement w fuel st1 c0
                  | [] => .ok st1
                execute_statement w fuel st2 (.whileStmt cond children)
            | _ => .ok st1
    | .forStmt cond children => do
        let st1 ←
          match children with
          | c0 :: _ => execute_statement w fuel st c0
          | [] => .ok st
        for_loop w fuel st1 cond children
    | .returnStmt e =>
        match e with
        | .none => .ok st
        | .some ex => do
            let (v, env1) ← evaluate_expression w st.vars ex
            .ok { st with vars := env1, result := v, returning := true }
    | .printStmt exprs => do
        let (results, env1) ← eval_print_args w st.vars exprs
        .ok { st with vars := env1, output := st.output ++ results }
    | .declaration e => do
        let (_, env1) ← evaluate_expression_opt w st.vars e
        .ok { st with vars := env1 }
    | .eachStmt e cond children =>
        match e with
        | .some (.inOp (p0 :: p1 :: _) arrName) =>
            match children with
            | body :: _ => do
                let array_val ← cast_to_array ((envFind st.vars arrName).getD defaultValue)
                each_loop_i w fuel array_val p0 p1 cond body 0 array_val.length st
            | [] => .error (.invalidNode "each statement missing body")
        | _ => .error (.invalidNode "each statement missing iteration header")
    | .empty => .ok st
termination_by fuel _ _ => (fuel, 0, 0)
/-- The BLOCK case loop: children run in order, and once a child has
set the returning flag the loop clears the flag and breaks. -/
def execute_block (w : World) : Nat → ExecState → List Stmt → Except ExecErr ExecState
  | _, st, [] => .ok st
  | fuel, st, c :: cs => do
      let st1 ← execute_statement w fuel st c
      if st1.returning then .ok { st1 with returning := false }
      else execute_block w fuel st1 cs
termination_by fuel _ cs => (fuel, 1, cs.length)
/-- The condition-check-body-update loop of the FOR case (the loop
iterates while the condition, when present, evaluates to the boolean
true; children[1] and children[2] are run each iteration). -/
def for_loop (w : World) : Nat → ExecState → ExprOpt → List Stmt → Except ExecErr ExecState
  | 0, _, _, _ => .error .fuelExhausted
  | fuel+1, st, cond, children =>
      match cond with
      | .none => do
          -- a for loop without a condition never stops
          let st2 ←
            match children.drop 1 with
            | c1 :: _ => execute_statement w fuel st c1
            | [] => .ok st
          let st3 ←
            match children.drop 2 with
            | c2 :: _ => execute_statement w fuel st2 c2
            | [] => .ok st2
          for_loop w fuel st3 cond children
      | .some c => do
          let (cond_val, env1) ← evaluate_expression w st.vars c
          let st1 := { st with vars := env1 }
          match cond_val with
          | .bool true => do
              let st2 ←
                match children.drop 1 with
                | c1 :: _ => execute_statement w fuel st1 c1
                | [] => .ok st1
              let st3 ←
                match children.drop 2 with
                | c2 :: _ => execute_statement w fuel st2 c2
                | [] => .ok st2
              for_loop w fuel st3 cond children
          | _ => .ok st1
termination_by fuel _ _ _ => (fuel, 0, 0)
/-- The outer index loop of the EACH case: i sweeps the array, the
inner loop visits the pairs of row i; count is the number of
iterations left, i.e. length - i. -/
def each_loop_i (w : World) : Nat → List Value → String → String → ExprOpt → Stmt →
    Nat → Nat → ExecState → Except ExecErr ExecState
  | _, _, _, _, _, _, _, 0, st => .ok st
  | fuel, array_val, p0, p1, cond, body, i, count+1, st => do
      let st1 ← each_loop_j w fuel array_val p0 p1 cond body i (i+1)
        (array_val.length - (i+1)) st
      each_loop_i w fuel array_val p0 p1 cond body (i+1) count st1
termination_by fuel _ _ _ _ _ _ count _ => (fuel, 2, count)
/-- The inner index loop of the EACH case: for the current i, j sweeps
i+1 to length-1; each iteration binds the two declared names to the
elements at i and j, evaluates the meet condition, and runs the body
only when the condition is the boolean true. -/
def each_loop_j (w : World) : Nat → List Value → String → String → ExprOpt → Stmt →
    Nat → Nat → Nat → ExecState → Except ExecErr ExecState
  | _, _, _, _, _, _, _, _, 0, st => .ok st
  | fuel, array_val, p0, p1, cond, body, i, j, count+1, st => do
      let env1 := envSet (envSet st.vars p0 (array_val.getD i defaultValue))
        p1 (array_val.getD j defaultValue)
      let (cond_val, env2) ← evaluate_expression_opt w env1 cond
      let st1 := { st with vars := env2 }
      match cond_val with
      | .bool true => do
          let st2 ← execute_statement w fuel st1 body
          each_loop_j w fuel array_val p0 p1 cond body i (j+1) count st2
      | _ => each_loop_j w fuel array_val p0 p1 cond body i (j+1) count st1
termination_by fuel _ _ _ _ _ _ _ count _ => (fuel, 1, count)
/-- The PRINT case loop collecting the argument values. -/
def eval_print_args (w : World) (env : Env) : List Expr → Except ExecErr (List Value × Env)
  | [] => .ok ([], env)
  | e :: es => do
      let (v, env1) ← evaluate_expression w env e
      let (vs, env2) ← eval_print_args w env1 es
      .ok (v :: vs, env2)
end

/-! ## Endpoint evaluation and request dispatch (executor.cpp, server.cpp) -/

/-- Member Executor::execute_api: run the endpoint body statement and
expose the result slot. -/
def execute_api (w : World) (fuel : Nat) (body : Stmt) : Except ExecErr Value := do
  let st ← execute_statement w fuel initExecState body
  .ok st.result

/-- The observable part of the HTTP response a Session writes back. -/
structure HttpResponse where
  status : Nat
  contentType : String
  body : String
  deriving Repr, DecidableEq

/-- Member Session::handle_request of server.cpp: the response starts
as 200 OK with the JSON content type; on a routing-table hit a fresh
Executor evaluates the endpoint body and its serialized result becomes
the body, on a miss the status becomes 404 with a text body naming the
port.  There is no try/catch around execute_api: an evaluator
exception propagates out of the posted thread-pool task (and, in the
running process, terminates it), which the error arm of the returned
Except models. -/
def handle_request (w : World) (fuel : Nat) (apis : List (String × Stmt))
    (port : Nat) (target : String) : Except ExecErr HttpResponse :=
  match apis.lookup target with
  | Option.some body => do
      let v ← execute_api w fuel body
      .ok { status := 200, contentType := "application/json; charset=utf-8",
            body := value_to_string v }
  | Option.none =>
      .ok { status := 404, contentType := "application/json; charset=utf-8",
            body := "Not Found (on port " ++ toString port ++ ")" }

/-! ## Tokens (lexer.h)

A token is its kind plus the lexeme text; positions are only used in
diagnostics and are dropped.  The parser is modelled on a token list,
the head playing the role of current_token and the empty list standing
for the end of the stream. -/

inductive TokenType where
  | KEYWORD_IF | KEYWORD_ELSE | KEYWORD_WHILE | KEYWORD_FOR | KEYWORD_IN
  | KEYWORD_MEET | KEYWORD_EACH | KEYWORD_INT | KEYWORD_FLOAT | KEYWORD_VOID
  | KEYWORD_RETURN | KEYWORD_PRINT | KEYWORD_API | KEYWORD_LISTEN
  | IDENTIFIER | CONSTANT_INTEGER | CONSTANT_FLOAT | CONSTANT_STRING
  | OP_PLUS | OP_PLUS_PLUS | OP_MINUS | OP_MINUS_MINUS | OP_RIGHT_ARROW
  | OP_MULTIPLY | OP_DIVIDE | OP_ASSIGN | OP_EQUALS | OP_NOT_EQUALS
  | OP_LESS | OP_LESS_EQUALS | OP_GREATER | OP_GREATER_EQUALS
  | OP_LOGICAL_AND | OP_LOGICAL_OR | OP_NOT | OP_LEFT_ARROW
  | SEPARATOR_LPAREN | SEPARATOR_RPAREN | SEPARATOR_LBRACE | SEPARATOR_RBRACE
  | SEPARATOR_LBRACKET | SEPARATOR_RBRACKET | SEPARATOR_SEMICOLON
  | SEPARATOR_NEWLINE | SEPARATOR_COLON | SEPARATOR_COMMA | SEPARATOR_DOT
  | UNKNOWN | END_OF_FILE
  deriving Repr, DecidableEq

structure Token where
  type : TokenType
  value : String
  deriving Repr, DecidableEq

/-- The current token: head of the stream, or the END_OF_FILE token
the lexer emits once the input is exhausted. -/
def curTok : List Token → Token
  | [] => ⟨.END_OF_FILE, ""⟩
  | t :: _ => t

/-- Parser::consume. -/
def consume (ts : List Token) : List Token := ts.tail

/-- A diagnostic from Parser::error; in the process it prints the
location and message and exits with status 1, so parsing never
resumes past it. -/
abbrev ParseErr := String

/-- Parser::expect: a newline is accepted wherever a semicolon is,
then on the expected kind the token is consumed, otherwise the parser
dies with the message. -/
def expect (tt : TokenType) (msg : String) (ts : List Token) :
    Except ParseErr (List Token) :=
  let ctype := (curTok ts).type
  let ctype := if ctype = .SEPARATOR_NEWLINE then TokenType.SEPARATOR_SEMICOLON else ctype
  if ctype = tt then .ok (consume ts) else .error msg

/-- After parse_address_expression returns an ARRAY_ACCESS or DOT node,
parse_primary_expression moves the identifier chain parsed so far into
its left child. -/
def setLeft (ident : Expr) : Expr → Expr
  | .arrayAccess _ r => .arrayAccess (.some ident) r
  | .dot _ r => .dot (.some ident) r
  | e => e

/-- Insertion into the object_members map of an OBJECT_LITERAL node
(an unordered_map in C++, so a repeated key overwrites). -/
def memberSet : MemberList → String → Expr → MemberList
  | .nil, k, v => .cons k v .nil
  | .cons k0 v0 tl, k, v =>
      if k0 = k then .cons k v tl else .cons k0 v0 (memberSet tl k v)

/-! ## Parser (parser.cpp)

Recursive descent over the token stream (diagnostic texts drop the
quote characters of the originals).  The grammar nests, so every
function takes a fuel argument decremented on each call; any parse the
C++ parser completes is reproduced by a large enough fuel
(the artificial out-of-fuel outcome reuses the ParseErr channel). -/

mutual
/-- Parser::parse_expression. -/
def parse_expression : Nat → List Token → Except ParseErr (Expr × List Token)
  | 0, _ => .error "parser out of fuel"
  | fuel+1, ts => parse_assignment_expression fuel ts
/-- Parser::parse_assignment_expression (right associative). -/
def parse_assignment_expression : Nat → List Token → Except ParseErr (Expr × List Token)
  | 0, _ => .error "parser out of fuel"
  | fuel+1, ts => do
      let (left, ts1) ← parse_logical_or_expression fuel ts
      if (curTok ts1).type = .OP_ASSIGN then do
        let (right, ts2) ← parse_assignment_expression fuel (consume ts1)
        .ok (.assign (.some left) (.some right), ts2)
      else .ok (left, ts1)
/-- Parser::parse_logical_or_expression. -/
def parse_logical_or_expression : Nat → List Token → Except ParseErr (Expr × List Token)
  | 0, _ => .error "parser out of fuel"
  | fuel+1, ts => do
      let (left, ts1) ← parse_logical_and_expression fuel ts
      parse_logical_or_loop fuel left ts1
/-- The while loop of parse_logical_or_expression. -/
def parse_logical_or_loop : Nat → Expr → List Token → Except ParseErr (Expr × List Token)
  | 0, _, _ => .error "parser out of fuel"
  | fuel+1, left, ts =>
      if (curTok ts).type = .OP_LOGICAL_OR then do
        let (right, ts1) ← parse_logical_and_expression fuel (consume ts)
        parse_logical_or_loop fuel (.or (.some left) (.some right)) ts1
      else .ok (left, ts)
/-- Parser::parse_logical_and_expression. -/
def parse_logical_and_expression : Nat → List Token → Except ParseErr (Expr × List Token)
  | 0, _ => .error "parser out of fuel"
  | fuel+1, ts => do
      let (left, ts1) ← parse_equality_expression fuel ts
      parse_logical_and_loop fuel left ts1
/-- The while loop of parse_logical_and_expression. -/
def parse_logical_and_loop : Nat → Expr → List Token → Except ParseErr (Expr × List Token)
  | 0, _, _ => .error "parser out of fuel"
  | fuel+1, left, ts =>
      if (curTok ts).type = .OP_LOGICAL_AND then do
        let (right, ts1) ← parse_equality_expression fuel (consume ts)
        parse_logical_and_loop fuel (.and (.some left) (.some right)) ts1
      else .ok (left, ts)
/-- Parser::parse_equality_expression. -/
def parse_equality_expression : Nat → List Token → Except ParseErr (Expr × List Token)
  | 0, _ => .error "parser out of fuel"
  | fuel+1, ts => do
      let (left, ts1) ← parse_relational_expression fuel ts
      parse_equality_loop fuel left ts1
/-- The while loop of parse_equality_expression. -/
def parse_equality_loop : Nat → Expr → List Token → Except ParseErr (Expr × List Token)
  | 0, _, _ => .error "parser out of fuel"
  | fuel+1, left, ts =>
      if (curTok ts).type = .OP_EQUALS then do
        let (right, ts1) ← parse_relational_expression fuel (consume ts)
        parse_equality_loop fuel (.eq (.some left) (.some right)) ts1
      else if (curTok ts).type = .OP_NOT_EQUALS then do
        let (right, ts1) ← parse_relational_expression fuel (consume ts)
        parse_equality_loop fuel (.neq (.some left) (.some right)) ts1
      else .ok (left, ts)
/-- Parser::parse_relational_expression. -/
def parse_relational_expression : Nat → List Token → Except ParseErr (Expr × List Token)
  | 0, _ => .error "parser out of fuel"
  | fuel+1, ts => do
      let (left, ts1) ← parse_additive_expression fuel ts
      parse_relational_loop fuel left ts1
/-- The while loop of parse_relational_expression. -/
def parse_relational_loop : Nat → Expr → List Token → Except ParseErr (Expr × List Token)
  | 0, _, _ => .error "parser out of fuel"
  | fuel+1, left, ts =>
      if (curTok ts).type = .OP_LESS then do
        let (right, ts1) ← parse_additive_expression fuel (consume ts)
        parse_relational_loop fuel (.lt (.some left) (.some right)) ts1
      else if (curTok ts).type = .OP_GREATER then do
        let (right, ts1) ← parse_additive_expression fuel (consume ts)
        parse_relational_loop fuel (.gt (.some left) (.some right)) ts1
      else if (curTok ts).type = .OP_LESS_EQUALS then do
        let (right, ts1) ← parse_additive_expression fuel (consume ts)
        parse_relational_loop fuel (.le (.some left) (.some right)) ts1
      else if (curTok ts).type = .OP_GREATER_EQUALS then do
        let (right, ts1) ← parse_additive_expression fuel (consume ts)
        parse_relational_loop fuel (.ge (.some left) (.some right)) ts1
      else .ok (left, ts)
/-- Parser::parse_additive_expression. -/
def parse_additive_expression : Nat → List Token → Except ParseErr (Expr × List Token)
  | 0, _ => .error "parser out of fuel"
  | fuel+1, ts => do
      let (left, ts1) ← parse_multiplicative_expression fuel ts
      parse_additive_loop fuel left ts1
/-- The while loop of parse_additive_expression. -/
def parse_additive_loop : Nat → Expr → List Token → Except ParseErr (Expr × List Token)
  | 0, _, _ => .error "parser out of fuel"
  | fuel+1, left, ts =>
      if (curTok ts).type = .OP_PLUS then do
        let (right, ts1) ← parse_multiplicative_expression fuel (consume ts)
        parse_additive_loop fuel (.add (.some left) (.some right)) ts1
      else if (curTok ts).type = .OP_MINUS then do
        let (right, ts1) ← parse_multiplicative_expression fuel (consume ts)
        parse_additive_loop fuel (.sub (.some left) (.some right)) ts1
      else .ok (left, ts)
/-- Parser::parse_multiplicative_expression. -/
def parse_multiplicative_expression : Nat → List Token → Except ParseErr (Expr × List Token)
  | 0, _ => .error "parser out of fuel"
  | fuel+1, ts => do
      let (left, ts1) ← parse_curl_expression fuel ts
      parse_multiplicative_loop fuel left ts1
/-- The while loop of parse_multiplicative_expression. -/
def parse_multiplicative_loop : Nat → Expr → List Token → Except ParseErr (Expr × List Token)
  | 0, _, _ => .error "parser out of fuel"
  | fuel+1, left, ts =>
      if (curTok ts).type = .OP_MULTIPLY then do
        let (right, ts1) ← parse_curl_expression fuel (consume ts)
        parse_multiplicative_loop fuel (.mul (.some left) (.some right)) ts1
      else if (curTok ts).type = .OP_DIVIDE then do
        let (right, ts1) ← parse_curl_expression fuel (consume ts)
        parse_multiplicative_loop fuel (.div (.some left) (.some right)) ts1
      else .ok (left, ts)
/-- Parser::parse_curl_expression (left associative on the arrow). -/
def parse_curl_expression : Nat → List Token → Except ParseErr (Expr × List Token)
  | 0, _ => .error "parser out of fuel"
  | fuel+1, ts => do
      let (left, ts1) ← parse_primary_expression fuel ts
      parse_curl_loop fuel left ts1
/-- The while loop of parse_curl_expression. -/
def parse_curl_loop : Nat → Expr → List Token → Except ParseErr (Expr × List Token)
  | 0, _, _ => .error "parser out of fuel"
  | fuel+1, left, ts =>
      if (curTok ts).type = .OP_LEFT_ARROW then do
        let (right, ts1) ← parse_primary_expression fuel (consume ts)
        parse_curl_loop fuel (.curl (.some left) (.some right)) ts1
      else .ok (left, ts)
/-- Parser::parse_address_expression: a bracket suffix builds an
ARRAY_ACCESS node and a dot suffix a DOT node, both with the index in
the right child and the left child still null; anything else yields no
suffix. -/
def parse_address_expression : Nat → List Token → Except ParseErr (Option Expr × List Token)
  | 0, _ => .error "parser out of fuel"
  | fuel+1, ts =>
      match (curTok ts).type with
      | .SEPARATOR_LBRACKET => do
          let (index, ts1) ← parse_expression fuel (consume ts)
          let ts2 ← expect .SEPARATOR_RBRACKET "Expected closing bracket for array access" ts1
          .ok (Option.some (.arrayAccess .none (.some index)), ts2)
      | .SEPARATOR_DOT => do
          let (index, ts1) ← parse_expression fuel (consume ts)
          .ok (Option.some (.dot .none (.some index)), ts1)
      | _ => .ok (Option.none, ts)
/-- Parser::parse_primary_expression. -/
def parse_primary_expression : Nat → List Token → Except ParseErr (Expr × List Token)
  | 0, _ => .error "parser out of fuel"
  | fuel+1, ts =>
      match (curTok ts).type with
      | .CONSTANT_INTEGER => .ok (.constInt (curTok ts).value, consume ts)
      | .CONSTANT_FLOAT => .ok (.constFloat (curTok ts).value, consume ts)
      | .CONSTANT_STRING => .ok (.constString (curTok ts).value, consume ts)
      | .OP_NOT => do
          -- the operand of a bang is parsed into the right child
          let (right, ts1) ← parse_primary_expression fuel (consume ts)
          .ok (.not .none (.some right), ts1)
      | .SEPARATOR_LPAREN => do
          let (e, ts1) ← parse_expression fuel (consume ts)
          let ts2 ← expect .SEPARATOR_RPAREN "Expected ) after expression" ts1
          .ok (e, ts2)
      | .SEPARATOR_LBRACKET => do
          let (elems, ts1) ← parse_array_elements fuel (consume ts)
          .ok (.arrayLiteral elems, ts1)
      | .SEPARATOR_LBRACE => do
          let (members, ts1) ← parse_object_members fuel .nil (consume ts)
          .ok (.objectLiteral members, ts1)
      | .SEPARATOR_DOT => do
          let (left, ts1) ← parse_primary_expression fuel (consume ts)
          match left with
          | .identifier _ => .ok (.dot (.some left) .none, ts1)
          | _ => .error "Unexpected token in dot expression"
      | .IDENTIFIER =>
          parse_suffix_loop fuel (.identifier (curTok ts).value) (consume ts)
      | _ => .error "Unexpected token in primary expression"
/-- The suffix loop of the IDENTIFIER case of parse_primary_expression:
address suffixes accrete onto the chain parsed so far. -/
def parse_suffix_loop : Nat → Expr → List Token → Except ParseErr (Expr × List Token)
  | 0, _, _ => .error "parser out of fuel"
  | fuel+1, ident, ts => do
      let (addr, ts1) ← parse_address_expression fuel ts
      match addr with
      | Option.none => .ok (ident, ts1)
      | Option.some a => parse_suffix_loop fuel (setLeft ident a) ts1
/-- The element loop of the array-literal case. -/
def parse_array_elements : Nat → List Token → Except ParseErr (ExprList × List Token)
  | 0, _ => .error "parser out of fuel"
  | fuel+1, ts =>
      if (curTok ts).type = .SEPARATOR_RBRACKET then .ok (.nil, consume ts)
      else do
        let (elem, ts1) ← parse_expression fuel ts
        if (curTok ts1).type = .SEPARATOR_COMMA then do
          let (rest, ts2) ← parse_array_elements fuel (consume ts1)
          .ok (.cons elem rest, ts2)
        else if (curTok ts1).type = .SEPARATOR_RBRACKET then
          .ok (.cons elem .nil, consume ts1)
        else .error "Expected comma or closing bracket in array"
/-- The member loop of the object-literal case; a key must be a string
literal followed by a colon, and after a member a comma continues the
loop while a closing brace ends it. -/
def parse_object_members : Nat → MemberList → List Token → Except ParseErr (MemberList × List Token)
  | 0, _, _ => .error "parser out of fuel"
  | fuel+1, acc, ts =>
      if (curTok ts).type = .SEPARATOR_RBRACE then .ok (acc, consume ts)
      else if (curTok ts).type ≠ .CONSTANT_STRING then
        .error "Expected string literal as key in object"
      else do
        let key := (curTok ts).value
        let ts1 := consume ts
        if (curTok ts1).type ≠ .SEPARATOR_COLON then
          .error "Expected colon after key in object"
        else do
          let (v, ts2) ← parse_expression fuel (consume ts1)
          let acc1 := memberSet acc key v
          if (curTok ts2).type = .SEPARATOR_COMMA then
            parse_object_members fuel acc1 (consume ts2)
          else if (curTok ts2).type ≠ .SEPARATOR_RBRACE then
            .error "Expected comma or closing brace in object"
          else .ok (acc1, consume ts2)
/-- Parser::parse_statement. -/
def parse_statement : Nat → List Token → Except ParseErr (Stmt × List Token)
  | 0, _ => .error "parser out of fuel"
  | fuel+1, ts =>
      match (curTok ts).type with
      | .SEPARATOR_LBRACE => parse_block fuel ts
      | .KEYWORD_IF => parse_if_statement fuel ts
      | .KEYWORD_WHILE => parse_while_statement fuel ts
      | .KEYWORD_FOR => parse_for_statement fuel ts
      | .KEYWORD_EACH => parse_each_statement fuel ts
      | .KEYWORD_RETURN => parse_return_statement fuel ts
      | .KEYWORD_PRINT => parse_print_statement fuel ts
      -- the type keyword is still the current token when
      -- parse_declaration is entered
      | .KEYWORD_INT => parse_declaration fuel ts
      | .KEYWORD_FLOAT => parse_declaration fuel ts
      | .SEPARATOR_NEWLINE => .ok (.empty, consume ts)
      | .SEPARATOR_SEMICOLON => .ok (.empty, consume ts)
      | _ => do
          let (e, ts1) ← parse_expression fuel ts
          let ts2 ← expect .SEPARATOR_SEMICOLON "Expected semicolon after expression" ts1
          .ok (.expression (.some e), ts2)
/-- Parser::parse_block. -/
def parse_block : Nat → List Token → Except ParseErr (Stmt × List Token)
  | 0, _ => .error "parser out of fuel"
  | fuel+1, ts => do
      let ts1 ← expect .SEPARATOR_LBRACE "Expected open brace to start block" ts
      let (children, ts2) ← parse_block_children fuel ts1
      let ts3 ← expect .SEPARATOR_RBRACE "Expected close brace to end block" ts2
      .ok (.block children, ts3)
/-- The statement loop of parse_block, until a closing brace or the
end of the file. -/
def parse_block_children : Nat → List Token → Except ParseErr (List Stmt × List Token)
  | 0, _ => .error "parser out of fuel"
  | fuel+1, ts =>
      if (curTok ts).type = .SEPARATOR_RBRACE ∨ (curTok ts).type = .END_OF_FILE then
        .ok ([], ts)
      else do
        let (s, ts1) ← parse_statement fuel ts
        let (rest, ts2) ← parse_block_children fuel ts1
        .ok (s :: rest, ts2)
/-- Parser::parse_if_statement. -/
def parse_if_statement : Nat → List Token → Except ParseErr (Stmt × List Token)
  | 0, _ => .error "parser out of fuel"
  | fuel+1, ts => do
      let ts1 ← expect .KEYWORD_IF "Expected keyword if" ts
      let ts2 ← expect .SEPARATOR_LPAREN "Expected ( after if" ts1
      let (cond, ts3) ← parse_expression fuel ts2
      let ts4 ← expect .SEPARATOR_RPAREN "Expected ) after if condition" ts3
      let (thenStmt, ts5) ← parse_statement fuel ts4
      if (curTok ts5).type = .KEYWORD_ELSE then do
        let (elseStmt, ts6) ← parse_statement fuel (consume ts5)
        .ok (.ifStmt (.some cond) [thenStmt, elseStmt], ts6)
      else .ok (.ifStmt (.some cond) [thenStmt], ts5)
/-- Parser::parse_while_statement. -/
def parse_while_statement : Nat → List Token → Except ParseErr (Stmt × List Token)
  | 0, _ => .error "parser out of fuel"
  | fuel+1, ts => do
      let ts1 ← expect .KEYWORD_WHILE "Expected keyword while" ts
      let ts2 ← expect .SEPARATOR_LPAREN "Expected ( after while" ts1
      let (cond, ts3) ← parse_expression fuel ts2
      let ts4 ← expect .SEPARATOR_RPAREN "Expected ) after while condition" ts3
      let (body, ts5) ← parse_statement fuel ts4
      .ok (.whileStmt (.some cond) [body], ts5)
/-- Parser::parse_for_statement.  Note the children order it produces:
the optional init statement, then the optional update expression
statement, then the loop body (the executor reads children[1] as the
body and children[2] as the update). -/
def parse_for_statement : Nat → List Token → Except ParseErr (Stmt × List Token)
  | 0, _ => .error "parser out of fuel"
  | fuel+1, ts => do
      let ts1 ← expect .KEYWORD_FOR "Expected keyword for" ts
      let ts2 ← expect .SEPARATOR_LPAREN "Expected ( after for" ts1
      let (initPart, ts3) ←
        if (curTok ts2).type ≠ .SEPARATOR_SEMICOLON then do
          let (s, ts') ← parse_statement fuel ts2
          .ok ([s], ts')
        else .ok (([] : List Stmt), consume ts2)
      let (cond, ts4) ←
        if (curTok ts3).type ≠ .SEPARATOR_SEMICOLON then do
          let (c, ts') ← parse_expression fuel ts3
          .ok (ExprOpt.some c, ts')
        else .ok (ExprOpt.none, ts3)
      let ts5 ← expect .SEPARATOR_SEMICOLON "Expected semicolon in for loop" ts4
      let (updatePart, ts6) ←
        if (curTok ts5).type ≠ .SEPARATOR_RPAREN then do
          let (u, ts') ← parse_expression fuel ts5
          .ok ([Stmt.expression (.some u)], ts')
        else .ok (([] : List Stmt), ts5)
      let ts7 ← expect .SEPARATOR_RPAREN "Expected ) after for loop conditions" ts6
      let (body, ts8) ← parse_statement fuel ts7
      .ok (.forStmt cond (initPart ++ updatePart ++ [body]), ts8)
/-- Parser::parse_in_expression. -/
def parse_in_expression : Nat → List Token → Except ParseErr (Expr × List Token)
  | 0, _ => .error "parser out of fuel"
  | fuel+1, ts => do
      let (params, ts1) ← parse_parameters fuel ts
      let ts2 ← expect .KEYWORD_IN "Expected keyword in in for loop" ts1
      let arrName := (curTok ts2).value
      let ts3 ← expect .IDENTIFIER "Expected identifier in declaration" ts2
      .ok (.inOp params arrName, ts3)
/-- Parser::parse_each_statement. -/
def parse_each_statement : Nat → List Token → Except ParseErr (Stmt × List Token)
  | 0, _ => .error "parser out of fuel"
  | fuel+1, ts => do
      let ts1 ← expect .KEYWORD_EACH "Expected keyword each" ts
      let (inExpr, ts2) ← parse_in_expression fuel ts1
      let ts3 ← expect .KEYWORD_MEET "Expected keyword meet in for loop" ts2
      let (cond, ts4) ← parse_expression fuel ts3
      let (body, ts5) ← parse_block fuel ts4
      .ok (.eachStmt (.some inExpr) (.some cond) [body], ts5)
/-- Parser::parse_return_statement: the expression is omitted exactly
when the token after the keyword is a semicolon. -/
def parse_return_statement : Nat → List Token → Except ParseErr (Stmt × List Token)
  | 0, _ => .error "parser out of fuel"
  | fuel+1, ts => do
      let ts1 ← expect .KEYWORD_RETURN "Expected keyword return" ts
      if (curTok ts1).type ≠ .SEPARATOR_SEMICOLON then do
        let (e, ts2) ← parse_expression fuel ts1
        let ts3 ← expect .SEPARATOR_SEMICOLON "Expected semicolon after return" ts2
        .ok (.returnStmt (.some e), ts3)
      else do
        let ts2 ← expect .SEPARATOR_SEMICOLON "Expected semicolon after return" ts1
        .ok (.returnStmt .none, ts2)
/-- Parser::parse_print_statement. -/
def parse_print_statement : Nat → List Token → Except ParseErr (Stmt × List Token)
  | 0, _ => .error "parser out of fuel"
  | fuel+1, ts => do
      let ts1 ← expect .KEYWORD_PRINT "Expected keyword print" ts
      let (args, ts2) ← parse_print_args fuel ts1
      let ts3 ← expect .SEPARATOR_SEMICOLON "Expected semicolon after return" ts2
      .ok (.printStmt args, ts3)
/-- The argument loop of parse_print_statement. -/
def parse_print_args : Nat → List Token → Except ParseErr (List Expr × List Token)
  | 0, _ => .error "parser out of fuel"
  | fuel+1, ts => do
      let (e, ts1) ← parse_expression fuel ts
      if (curTok ts1).type = .SEPARATOR_COMMA then do
        let (rest, ts2) ← parse_print_args fuel (consume ts1)
        .ok (e :: rest, ts2)
      else .ok ([e], ts1)
/-- Parser::parse_declaration.  The statement dispatch enters it with
the int or float keyword still being the current token, and the code
that would consume the type keyword is commented out in the source, so
the identifier check below always sees the type keyword itself. -/
def parse_declaration : Nat → List Token → Except ParseErr (Stmt × List Token)
  | 0, _ => .error "parser out of fuel"
  | fuel+1, ts =>
      if (curTok ts).type ≠ .IDENTIFIER then
        .error "Expected identifier in declaration"
      else do
        let name := (curTok ts).value
        let ts1 := consume ts
        let (initExpr, ts2) ←
          if (curTok ts1).type = .OP_ASSIGN then do
            let (right, ts') ← parse_expression fuel (consume ts1)
            .ok (ExprOpt.some (.assign (.some (.identifier name)) (.some right)), ts')
          else .ok (ExprOpt.none, ts1)
        let ts3 ← expect .SEPARATOR_SEMICOLON "Expected semicolon after declaration" ts2
        .ok (.declaration initExpr, ts3)
/-- Parser::parse_parameters. -/
def parse_parameters : Nat → List Token → Except ParseErr (List String × List Token)
  | 0, _ => .error "parser out of fuel"
  | fuel+1, ts =>
      if (curTok ts).type = .SEPARATOR_RPAREN then .ok ([], ts)
      else parse_parameters_loop fuel ts
/-- The name loop of parse_parameters. -/
def parse_parameters_loop : Nat → List Token → Except ParseErr (List String × List Token)
  | 0, _ => .error "parser out of fuel"
  | fuel+1, ts =>
      if (curTok ts).type ≠ .IDENTIFIER then
        .error "Expected identifier in parameter list"
      else do
        let name := (curTok ts).value
        let ts1 := consume ts
        if (curTok ts1).type = .SEPARATOR_COMMA then do
          let (rest, ts2) ← parse_parameters_loop fuel (consume ts1)
          .ok (name :: rest, ts2)
        else .ok ([name], ts1)
end

/-! ## General lemmas about the embedding -/

theorem except_ok_bind {ε α β : Type} (a : α) (f : α → Except ε β) :
    (Except.ok a >>= f) = f a := rfl

theorem except_error_bind {ε α β : Type} (e : ε) (f : α → Except ε β) :
    ((Except.error e : Except ε α) >>= f) = Except.error e := rfl

/-! ## Reference description of the pair iteration of each

The claim about the each statement says which (i, j) pairs the two
nested loops of the EACH case visit, in which order, and what happens
per pair.  The definitions below write that down directly: the pair
list for one row, the rows in order, and a fold that performs the
claimed per-pair step; the claim theorem then proves the loops of
execute_statement equal to this fold. -/

/-- Pairs of row i starting at column j, n columns in total. -/
def rowPairs (i j count : Nat) : List (Nat × Nat) :=
  (List.range count).map (fun k => (i, j + k))

/-- Rows i, i+1, ..., each contributing its pairs (r, r+1) ... (r, n-1). -/
def rowsFrom (n : Nat) : Nat → Nat → List (Nat × Nat)
  | _, 0 => []
  | i, count+1 => rowPairs i (i+1) (n - (i+1)) ++ rowsFrom n (i+1) count

/-- All pairs (i, j) with i < j < n, in the order the nested loops
visit them. -/
def pairIndices (n : Nat) : List (Nat × Nat) := rowsFrom n 0 n

/-- The claimed per-pair behaviour, written as a fold over an explicit
pair list: bind the two declared names to the elements at i and j,
evaluate the meet condition, run the body exactly when the condition
is the boolean true, and skip the pair otherwise. -/
def eachFold (w : World) (fuel : Nat) (array_val : List Value) (p0 p1 : String)
    (cond : ExprOpt) (body : Stmt) : List (Nat × Nat) → ExecState → Except ExecErr ExecState
  | [], st => .ok st
  | (i, j) :: rest, st => do
      let env1 := envSet (envSet st.vars p0 (array_val.getD i defaultValue))
        p1 (array_val.getD j defaultValue)
      let (cond_val, env2) ← evaluate_expression_opt w env1 cond
      let st1 := { st with vars := env2 }
      match cond_val with
      | .bool true => do
          let st2 ← execute_statement w fuel st1 body
          eachFold w fuel array_val p0 p1 cond body rest st2
      | _ => eachFold w fuel array_val p0 p1 cond body rest st1

theorem eachFold_append (w : World) (fuel : Nat) (array_val : List Value)
    (p0 p1 : String) (cond : ExprOpt) (body : Stmt) (l1 l2 : List (Nat × Nat)) :
    ∀ st, eachFold w fuel array_val p0 p1 cond body (l1 ++ l2) st =
      (eachFold w fuel array_val p0 p1 cond body l1 st) >>=
        eachFold w fuel array_val p0 p1 cond body l2 := by
  induction l1 with
  | nil => intro st; simp [eachFold, except_ok_bind]
  | cons hd tl ih =>
    intro st
    obtain ⟨i, j⟩ := hd
    simp only [List.cons_append, eachFold]
    cases hcv : evaluate_expression_opt w
        (envSet (envSet st.vars p0 (array_val.getD i defaultValue))
          p1 (array_val.getD j defaultValue)) cond with
    | error e => simp [except_error_bind]
    | ok p =>
      obtain ⟨cv, env2⟩ := p
      simp only [except_ok_bind]
      match cv with
      | .bool true =>
          cases hb : execute_statement w fuel { st with vars := env2 } body with
          | error e => simp [except_error_bind]
          | ok st2 => simp [except_ok_bind, ih]
      | .bool false => exact ih _
      | .int n => exact ih _
      | .float q => exact ih _
      | .str s => exact ih _
      | .arr xs => exact ih _
      | .obj fs => exact ih _

theorem each_loop_j_eq_fold (w : World) (fuel : Nat) (array_val : List Value)
    (p0 p1 : String) (cond : ExprOpt) (body : Stmt) (i : Nat) :
    ∀ count j st, each_loop_j w fuel array_val p0 p1 cond body i j count st =
      eachFold w fuel array_val p0 p1 cond body (rowPairs i j count) st := by
  intro count
  induction count with
  | zero => intro j st; simp [each_loop_j, rowPairs, eachFold]
  | succ c ih =>
    intro j st
    have hrow : rowPairs i j (c+1) = (i, j) :: rowPairs i (j+1) c := by
      simp only [rowPairs, List.range_succ_eq_map, List.map_cons, List.map_map]
      congr 1
      apply List.map_congr_left
      intro a _
      simp only [Function.comp_apply, Prod.mk.injEq, true_and]
      omega
    rw [hrow]
    simp only [each_loop_j, eachFold]
    cases hcv : evaluate_expression_opt w
        (envSet (envSet st.vars p0 (array_val.getD i defaultValue))
          p1 (array_val.getD j defaultValue)) cond with
    | error e => simp [except_error_bind]
    | ok p =>
      obtain ⟨cv, env2⟩ := p
      simp only [except_ok_bind]
      match cv with
      | .bool true =>
          cases hb : execute_statement w fuel { st with vars := env2 } body with
          | error e => simp [except_error_bind]
          | ok st2 => simp [except_ok_bind, ih]
      | .bool false => exact ih _ _
      | .int n => exact ih _ _
      | .float q => exact ih _ _
      | .str s => exact ih _ _
      | .arr xs => exact ih _ _
      | .obj fs => exact ih _ _

theorem each_loop_i_eq_fold (w : World) (fuel : Nat) (array_val : List Value)
    (p0 p1 : String) (cond : ExprOpt) (body : Stmt) :
    ∀ count i st, each_loop_i w fuel array_val p0 p1 cond body i count st =
      eachFold w fuel array_val p0 p1 cond body (rowsFrom array_val.length i count) st := by
  intro count
  induction count with
  | zero => intro i st; simp [each_loop_i, rowsFrom, eachFold]
  | succ c ih =>
    intro i st
    simp only [each_loop_i, rowsFrom, eachFold_append, each_loop_j_eq_fold]
    cases hrow : eachFold w fuel array_val p0 p1 cond body
        (rowPairs i (i+1) (array_val.length - (i+1))) st with
    | error e => simp [except_error_bind]
    | ok st1 => simp [except_ok_bind, ih]

/-- Membership in the enumerated pair list is exactly i < j < n. -/
theorem mem_rowsFrom (n : Nat) :
    ∀ count i p, p ∈ rowsFrom n i count ↔
      (i ≤ p.1 ∧ p.1 < i + count ∧ p.1 < p.2 ∧ p.2 < n) := by
  intro count
  induction count with
  | zero => intro i p; simp [rowsFrom]; omega
  | succ c ih =>
    intro i p
    obtain ⟨a, b⟩ := p
    simp only [rowsFrom, List.mem_append, ih, rowPairs, List.mem_map, List.mem_range]
    constructor
    · rintro (⟨k, hk, hab⟩ | h)
      · obtain ⟨ha, hb⟩ := Prod.mk.injEq .. ▸ hab
        simp at hab
        omega
      · omega
    · rintro ⟨h1, h2, h3, h4⟩
      rcases Nat.eq_or_lt_of_le h1 with heq | hlt
      · left
        exact ⟨b - (a + 1), by omega, by simp; omega⟩
      · right
        omega

theorem mem_pairIndices (n : Nat) (p : Nat × Nat) :
    p ∈ pairIndices n ↔ (p.1 < p.2 ∧ p.2 < n) := by
  rw [pairIndices, mem_rowsFrom]
  omega

/-- The enumeration is strictly increasing in the lexicographic order
on (i, j), hence each pair occurs exactly once and in that order. -/
theorem pairwise_rowsFrom (n : Nat) :
    ∀ count i, List.Pairwise (fun p q : Nat × Nat => p.1 < q.1 ∨ (p.1 = q.1 ∧ p.2 < q.2))
      (rowsFrom n i count) := by
  intro count
  induction count with
  | zero => intro i; simp [rowsFrom]
  | succ c ih =>
    intro i
    simp only [rowsFrom]
    rw [List.pairwise_append]
    refine ⟨?_, ih (i+1), ?_⟩
    · apply List.pairwise_map.mpr
      refine (List.pairwise_lt_range _).imp ?_
      intro a b hab
      right
      exact ⟨rfl, by omega⟩
    · intro p hp q hq
      simp only [rowPairs, List.mem_map, List.mem_range] at hp
      obtain ⟨k, hk, rfl⟩ := hp
      have := (mem_rowsFrom n c (i+1) q).mp hq
      left
      omega

theorem pairwise_pairIndices (n : Nat) :
    List.Pairwise (fun p q : Nat × Nat => p.1 < q.1 ∨ (p.1 = q.1 ∧ p.2 < q.2))
      (pairIndices n) :=
  pairwise_rowsFrom n n 0

/-! ## Support definitions for the claim theorems -/

/-- Numeric means int or float, as the arithmetic promotion rules read
the operands. -/
def Value.isNumeric (v : Value) : Bool := v.isInt || v.isFloat

/-- An outcome that is one of the type-error throws: an operator
rejection message or a get_value alternative mismatch. -/
def isTypeErrorResult {α : Type} : Except ExecErr α → Prop
  | .error (.typeError _) => True
  | .error (.typeMismatch _ _) => True
  | _ => False

/-- Inversion of the float-or-widened-int read: success means the
value was an int (widened) or already a float. -/
theorem readAsFloat_ok {v : Value} {x : ℚ} (h : readAsFloat v = .ok x) :
    (∃ n : Int, v = .int n ∧ x = (n : ℚ)) ∨ v = .float x := by
  cases v with
  | int n =>
      left
      refine ⟨n, rfl, ?_⟩
      simp [readAsFloat] at h
      exact h.symm
  | float q =>
      right
      simp [readAsFloat] at h
      rw [h]
  | str s => simp [readAsFloat] at h
  | bool b => simp [readAsFloat] at h
  | arr xs => simp [readAsFloat] at h
  | obj fs => simp [readAsFloat] at h

/-- A two-entry environment binding the operand names used by the
arithmetic claim. -/
def varEnv (l r : Value) : Env := [("a", l), ("b", r)]

/-- A binary operator node applied to the two bound operand names. -/
def binOpOnVars (mk : ExprOpt → ExprOpt → Expr) : Expr :=
  mk (.some (.identifier "a")) (.some (.identifier "b"))

/-! ## The claims -/

/-- C1: the claim says a runtime error while evaluating a matched
endpoint body yields a 5xx response and the server keeps serving.  In
Session::handle_request the call executor.execute_api runs inside a
posted thread-pool task with no try/catch, so the ExecutionError
escapes instead of producing any response: on the failing input the
embedded dispatcher returns the propagated error (first conjunct), and
no code path builds a 5xx (the only built statuses are 200 and 404,
second and third conjuncts). -/
theorem claim_C1_dispatch_error_escapes :
    handle_request emptyWorld 10
        [("/div0", .block [.returnStmt (.some (.div (.some (.constInt "1"))
          (.some (.constInt "0"))))])] 80 "/div0"
      = .error .divisionByZero
  ∧ handle_request emptyWorld 10
        [("/div0", .block [.returnStmt (.some (.div (.some (.constInt "1"))
          (.some (.constInt "0"))))])] 80 "/hello"
      = .ok ⟨404, "application/json; charset=utf-8", "Not Found (on port 80)"⟩
  ∧ (∀ w fuel apis port target res,
      handle_request w fuel apis port target = .ok res →
      res.status = 200 ∨ res.status = 404) := by
  refine ⟨?_, by rfl, ?_⟩
  · simp only [handle_request, List.lookup, beq_self_eq_true, reduceIte,
      execute_api, execute_statement, execute_block, initExecState,
      except_ok_bind, except_error_bind]
    rfl
  · intro w fuel apis port target res h
    unfold handle_request at h
    cases hq : apis.lookup target with
    | none =>
        rw [hq] at h
        injection h with h
        subst h
        right
        rfl
    | some body =>
        rw [hq] at h
        cases hv : execute_api w fuel body with
        | error e =>
            simp only [hv, except_error_bind] at h
            exact Except.noConfusion h
        | ok v =>
            simp only [hv, except_ok_bind] at h
            injection h with h
            subst h
            left
            rfl

/-- C1 witness: the never-5xx conjunct applied at a concrete request
that misses the routing table. -/
theorem claim_C1_dispatch_error_escapes_witness :
    (handle_request emptyWorld 1 [] 80 "/x" = .ok ⟨404, "application/json; charset=utf-8",
      "Not Found (on port 80)"⟩)
  ∧ ((⟨404, "application/json; charset=utf-8", "Not Found (on port 80)"⟩ : HttpResponse).status = 200
      ∨ (⟨404, "application/json; charset=utf-8", "Not Found (on port 80)"⟩ : HttpResponse).status = 404) :=
  ⟨rfl, claim_C1_dispatch_error_escapes.2.2 emptyWorld 1 [] 80 "/x" _ rfl⟩

/-- C2 counterexample: the claim says the returning flag is cleared
only at the endpoint body boundary and nothing after the return in any
enclosing block runs.  On the body consisting of an inner block with a
return of 1 followed by a return of 2, the inner block itself clears
the flag (second conjunct: after the inner block the flag is false and
the result slot holds 1), so the outer block continues and the
endpoint evaluates to 2 (first conjunct), not 1. -/
theorem claim_C2_counterexample :
    execute_api emptyWorld 10
        (.block [.block [.returnStmt (.some (.constInt "1"))],
                 .returnStmt (.some (.constInt "2"))])
      = .ok (.int 2)
  ∧ execute_statement emptyWorld 2 initExecState
        (.block [.returnStmt (.some (.constInt "1"))])
      = .ok { vars := [], result := .int 1, returning := false, output := [] } := by
  constructor
  · simp only [execute_api, execute_statement, execute_block, initExecState,
      except_ok_bind, except_error_bind]
    rfl
  · simp only [execute_statement, execute_block, initExecState,
      except_ok_bind, except_error_bind]
    rfl

/-- C2 amended: once a return executes, the returning flag is cleared
at the first enclosing block, which skips only its own remaining
statements; the enclosing outer block then continues with its
following statements (so the endpoint result is the value stored by
the last executed return, not necessarily the first). -/
theorem claim_C2_amended (w : World) (fuel : Nat) (st : ExecState) (e : Expr)
    (v : Value) (env' : Env) (innerRest outerRest : List Stmt)
    (h : evaluate_expression w st.vars e = .ok (v, env')) :
    execute_statement w (fuel+1+1+1) st
        (.block (.block (.returnStmt (.some e) :: innerRest) :: outerRest))
      = execute_block w (fuel+1+1)
          { st with vars := env', result := v, returning := false } outerRest := by
  simp [execute_statement, execute_block, evaluate_expression_opt, h,
    except_ok_bind]

/-- C2 amended witness: the amended statement at a concrete nested
body, with the statement after the inner block still to run. -/
theorem claim_C2_amended_witness :
    evaluate_expression emptyWorld initExecState.vars (.constInt "5") = .ok (.int 5, [])
  ∧ execute_statement emptyWorld (0+1+1+1) initExecState
        (.block (.block [.returnStmt (.some (.constInt "5"))] ::
          [.returnStmt (.some (.constInt "7"))]))
      = execute_block emptyWorld (0+1+1)
          { initExecState with vars := [], result := .int 5, returning := false }
          [.returnStmt (.some (.constInt "7"))] :=
  ⟨rfl, claim_C2_amended emptyWorld 0 initExecState (.constInt "5") (.int 5) []
    [] [.returnStmt (.some (.constInt "7"))] rfl⟩

/-- C3: the claim says declarations int/float name [ = expr ] ; are
accepted, the type keyword being consumed but not enforced.  The
statement dispatch reaches parse_declaration with the type keyword
still current and the code that would consume it is commented out, so
the very first check (identifier expected) fails on the keyword and
the parser aborts: generally for any stream starting with a type
keyword, and concretely for all four declaration forms. -/
theorem claim_C3_declaration_rejected :
    (∀ fuel v rest, parse_declaration (fuel+1) (⟨.KEYWORD_INT, v⟩ :: rest)
      = .error "Expected identifier in declaration")
  ∧ (∀ fuel v rest, parse_declaration (fuel+1) (⟨.KEYWORD_FLOAT, v⟩ :: rest)
      = .error "Expected identifier in declaration")
  ∧ (∀ fuel v rest, parse_statement (fuel+1+1) (⟨.KEYWORD_INT, v⟩ :: rest)
      = .error "Expected identifier in declaration")
  ∧ parse_statement 50 [⟨.KEYWORD_INT, "int"⟩, ⟨.IDENTIFIER, "x"⟩, ⟨.SEPARATOR_SEMICOLON, ";"⟩]
      = .error "Expected identifier in declaration"
  ∧ parse_statement 50 [⟨.KEYWORD_FLOAT, "float"⟩, ⟨.IDENTIFIER, "x"⟩, ⟨.SEPARATOR_SEMICOLON, ";"⟩]
      = .error "Expected identifier in declaration"
  ∧ parse_statement 50 [⟨.KEYWORD_INT, "int"⟩, ⟨.IDENTIFIER, "x"⟩, ⟨.OP_ASSIGN, "="⟩,
        ⟨.CONSTANT_INTEGER, "1"⟩, ⟨.SEPARATOR_SEMICOLON, ";"⟩]
      = .error "Expected identifier in declaration"
  ∧ parse_statement 50 [⟨.KEYWORD_FLOAT, "float"⟩, ⟨.IDENTIFIER, "x"⟩, ⟨.OP_ASSIGN, "="⟩,
        ⟨.CONSTANT_FLOAT, "2.5"⟩, ⟨.SEPARATOR_SEMICOLON, ";"⟩]
      = .error "Expected identifier in declaration" := by
  refine ⟨?_, ?_, ?_, rfl, rfl, rfl, rfl⟩
  · intro fuel v rest; simp [parse_declaration, curTok]
  · intro fuel v rest; simp [parse_declaration, curTok]
  · intro fuel v rest; simp [parse_statement, parse_declaration, curTok]

/-- C4: the claim says evaluating a bang on a boolean succeeds with
the negation.  The parser stores the operand of a bang in the right
child (first conjunct, on the source text bang, open paren, 1, ==, 1,
close paren), while the NOT case of the evaluator reads the left
child, which is null on every parser-built NOT node, so evaluation
always fails with the Null expression error regardless of the operand
(second conjunct). -/
theorem claim_C4_not_evaluation_fails :
    parse_expression 50 [⟨.OP_NOT, "!"⟩, ⟨.SEPARATOR_LPAREN, "("⟩, ⟨.CONSTANT_INTEGER, "1"⟩,
        ⟨.OP_EQUALS, "=="⟩, ⟨.CONSTANT_INTEGER, "1"⟩, ⟨.SEPARATOR_RPAREN, ")"⟩]
      = .ok (.not .none (.some (.eq (.some (.constInt "1")) (.some (.constInt "1")))), [])
  ∧ (∀ w env rexp, evaluate_expression w env (.not .none rexp)
      = .error .nullExpression) := by
  refine ⟨rfl, ?_⟩
  intro w env rexp
  simp [evaluate_expression, evaluate_expression_opt, except_error_bind]

/-- Evaluation shape of plus on the two bound operands: the operand
reads always succeed, leaving exactly the typing match of the ADD
case. -/
theorem eval_add_on_vars (w : World) (l r : Value) :
    evaluate_expression w (varEnv l r) (binOpOnVars .add) =
      (match l, r with
      | .int a, .int b => .ok (.int (a + b), varEnv l r)
      | _, _ =>
        if l.isFloat || r.isFloat then do
          let a ← readAsFloat l
          let b ← readAsFloat r
          .ok (.float (a + b), varEnv l r)
        else match l, r with
          | .str a, .str b => .ok (.str (a ++ b), varEnv l r)
          | _, _ => .error (.typeError ("Addition not supported for types: "
              ++ get_type_name l ++ " and " ++ get_type_name r))) := by
  simp [varEnv, binOpOnVars, evaluate_expression, evaluate_expression_opt,
    envFind, List.lookup, except_ok_bind]

/-- Evaluation shape of minus on the two bound operands. -/
theorem eval_sub_on_vars (w : World) (l r : Value) :
    evaluate_expression w (varEnv l r) (binOpOnVars .sub) =
      (match l, r with
      | .int a, .int b => .ok (.int (a - b), varEnv l r)
      | _, _ =>
        if l.isFloat || r.isFloat then do
          let a ← readAsFloat l
          let b ← readAsFloat r
          .ok (.float (a - b), varEnv l r)
        else .error (.typeError ("Subtraction not supported for types: "
            ++ get_type_name l ++ " and " ++ get_type_name r))) := by
  simp [varEnv, binOpOnVars, evaluate_expression, evaluate_expression_opt,
    envFind, List.lookup, except_ok_bind]

/-- Evaluation shape of times on the two bound operands. -/
theorem eval_mul_on_vars (w : World) (l r : Value) :
    evaluate_expression w (varEnv l r) (binOpOnVars .mul) =
      (match l, r with
      | .int a, .int b => .ok (.int (a * b), varEnv l r)
      | _, _ =>
        if l.isFloat || r.isFloat then do
          let a ← readAsFloat l
          let b ← readAsFloat r
          .ok (.float (a * b), varEnv l r)
        else .error (.typeError ("Multiplication not supported for types: "
            ++ get_type_name l ++ " and " ++ get_type_name r))) := by
  simp [varEnv, binOpOnVars, evaluate_expression, evaluate_expression_opt,
    envFind, List.lookup, except_ok_bind]

/-- Evaluation shape of division on the two bound operands. -/
theorem eval_div_on_vars (w : World) (l r : Value) :
    evaluate_expression w (varEnv l r) (binOpOnVars .div) =
      (match l, r with
      | .int a, .int b =>
          if b = 0 then .error .divisionByZero
          else .ok (.int (a.tdiv b), varEnv l r)
      | _, _ =>
        if l.isFloat || r.isFloat then do
          let a ← readAsFloat l
          let b ← readAsFloat r
          if b = 0 then .error .divisionByZero
          else .ok (.float (a / b), varEnv l r)
        else .error (.typeError ("Division not supported for types: "
            ++ get_type_name l ++ " and " ++ get_type_name r))) := by
  simp [varEnv, binOpOnVars, evaluate_expression, evaluate_expression_opt,
    envFind, List.lookup, except_ok_bind]

/-- C5: arithmetic typing.  Operands are bound in the environment and
read through identifier nodes.  Two integers give an integer result
(division truncating toward zero, failing on a zero divisor); if
either operand is a float and both are numeric (readAsFloat succeeds
exactly on ints, widened, and floats), both are promoted and the
result is a float, division again failing on a zero divisor; plus on
two strings concatenates while the other operators reject strings; and
every remaining combination fails with a type error for all four
operators. -/
theorem claim_C5_arithmetic (w : World) (l r : Value) :
    (∀ a b, l = .int a → r = .int b →
        evaluate_expression w (varEnv l r) (binOpOnVars .add) = .ok (.int (a + b), varEnv l r)
      ∧ evaluate_expression w (varEnv l r) (binOpOnVars .sub) = .ok (.int (a - b), varEnv l r)
      ∧ evaluate_expression w (varEnv l r) (binOpOnVars .mul) = .ok (.int (a * b), varEnv l r)
      ∧ evaluate_expression w (varEnv l r) (binOpOnVars .div)
          = (if b = 0 then .error .divisionByZero else .ok (.int (a.tdiv b), varEnv l r)))
  ∧ (∀ x y, (l.isFloat || r.isFloat) = true → readAsFloat l = .ok x → readAsFloat r = .ok y →
        evaluate_expression w (varEnv l r) (binOpOnVars .add) = .ok (.float (x + y), varEnv l r)
      ∧ evaluate_expression w (varEnv l r) (binOpOnVars .sub) = .ok (.float (x - y), varEnv l r)
      ∧ evaluate_expression w (varEnv l r) (binOpOnVars .mul) = .ok (.float (x * y), varEnv l r)
      ∧ evaluate_expression w (varEnv l r) (binOpOnVars .div)
          = (if y = 0 then .error .divisionByZero else .ok (.float (x / y), varEnv l r)))
  ∧ (∀ s t, l = .str s → r = .str t →
        evaluate_expression w (varEnv l r) (binOpOnVars .add) = .ok (.str (s ++ t), varEnv l r)
      ∧ isTypeErrorResult (evaluate_expression w (varEnv l r) (binOpOnVars .sub))
      ∧ isTypeErrorResult (evaluate_expression w (varEnv l r) (binOpOnVars .mul))
      ∧ isTypeErrorResult (evaluate_expression w (varEnv l r) (binOpOnVars .div)))
  ∧ ((l.isInt && r.isInt) = false →
     ((l.isFloat || r.isFloat) && (l.isNumeric && r.isNumeric)) = false →
     (l.isStr && r.isStr) = false →
        isTypeErrorResult (evaluate_expression w (varEnv l r) (binOpOnVars .add))
      ∧ isTypeErrorResult (evaluate_expression w (varEnv l r) (binOpOnVars .sub))
      ∧ isTypeErrorResult (evaluate_expression w (varEnv l r) (binOpOnVars .mul))
      ∧ isTypeErrorResult (evaluate_expression w (varEnv l r) (binOpOnVars .div))) := by
  refine ⟨?_, ?_, ?_, ?_⟩
  · rintro a b rfl rfl
    refine ⟨?_, ?_, ?_, ?_⟩ <;>
      simp [eval_add_on_vars, eval_sub_on_vars, eval_mul_on_vars, eval_div_on_vars]
  · rintro x y hf hx hy
    rcases readAsFloat_ok hx with ⟨n1, rfl, rfl⟩ | rfl <;>
      rcases readAsFloat_ok hy with ⟨n2, rfl, rfl⟩ | rfl
    · simp [Value.isFloat] at hf
    all_goals refine ⟨?_, ?_, ?_, ?_⟩ <;>
      simp [eval_add_on_vars, eval_sub_on_vars, eval_mul_on_vars, eval_div_on_vars,
        readAsFloat, Value.isFloat, except_ok_bind, except_error_bind]
  · rintro s t rfl rfl
    refine ⟨?_, ?_, ?_, ?_⟩ <;>
      simp [eval_add_on_vars, eval_sub_on_vars, eval_mul_on_vars, eval_div_on_vars,
        Value.isFloat, isTypeErrorResult]
  · intro h1 h2 h3
    refine ⟨?_, ?_, ?_, ?_⟩
    · rw [eval_add_on_vars]
      cases l <;> cases r <;>
        simp_all [Value.isInt, Value.isFloat, Value.isStr, Value.isNumeric,
          readAsFloat, isTypeErrorResult, except_ok_bind, except_error_bind]
    · rw [eval_sub_on_vars]
      cases l <;> cases r <;>
        simp_all [Value.isInt, Value.isFloat, Value.isStr, Value.isNumeric,
          readAsFloat, isTypeErrorResult, except_ok_bind, except_error_bind]
    · rw [eval_mul_on_vars]
      cases l <;> cases r <;>
        simp_all [Value.isInt, Value.isFloat, Value.isStr, Value.isNumeric,
          readAsFloat, isTypeErrorResult, except_ok_bind, except_error_bind]
    · rw [eval_div_on_vars]
      cases l <;> cases r <;>
        simp_all [Value.isInt, Value.isFloat, Value.isStr, Value.isNumeric,
          readAsFloat, isTypeErrorResult, except_ok_bind, except_error_bind]

/-- C5 witness: the integer branch at 7 and 3 (including truncating
division), the promotion branch at one half and 2, the string branch,
and the rejection branch at a boolean and an integer. -/
theorem claim_C5_arithmetic_witness :
    (evaluate_expression emptyWorld (varEnv (.int 7) (.int 3)) (binOpOnVars .div)
      = .ok (.int 2, varEnv (.int 7) (.int 3)))
  ∧ (evaluate_expression emptyWorld (varEnv (.float (1/2)) (.int 2)) (binOpOnVars .add)
      = .ok (.float ((1/2 : ℚ) + 2), varEnv (.float (1/2)) (.int 2)))
  ∧ (evaluate_expression emptyWorld (varEnv (.str "ab") (.str "cd")) (binOpOnVars .add)
      = .ok (.str "abcd", varEnv (.str "ab") (.str "cd")))
  ∧ isTypeErrorResult (evaluate_expression emptyWorld (varEnv (.bool true) (.int 1))
      (binOpOnVars .mul)) := by
  have h1 := (claim_C5_arithmetic emptyWorld (.int 7) (.int 3)).1 7 3 rfl rfl
  have h2 := (claim_C5_arithmetic emptyWorld (.float (1/2)) (.int 2)).2.1 (1/2) 2
    rfl rfl rfl
  have h3 := (claim_C5_arithmetic emptyWorld (.str "ab") (.str "cd")).2.2.1 "ab" "cd"
    rfl rfl
  have h4 := (claim_C5_arithmetic emptyWorld (.bool true) (.int 1)).2.2.2
    rfl rfl rfl
  refine ⟨?_, h2.1, h3.1, h4.2.2.1⟩
  have h5 := h1.2.2.2
  rw [if_neg (by decide : ¬ (3 : Int) = 0)] at h5
  rw [show Int.tdiv 7 3 = 2 by decide] at h5
  exact h5

/-- C6: the each statement over an array bound to the iterated
variable equals the reference fold over pairIndices (first conjunct);
pairIndices (length) holds exactly the pairs i < j < length (second),
in strictly increasing lexicographic order, hence each exactly once
and in that order (third); and the fold performs the claimed per-pair
step: after binding the two names, a condition evaluating to the
boolean true runs the body, and a non-boolean condition value silently
skips the pair (fourth). -/
theorem claim_C6_each_pairs (w : World) (fuel : Nat) (st : ExecState)
    (p0 p1 arrName : String) (ps : List String) (cond : ExprOpt) (body : Stmt)
    (rest : List Stmt) (xs : List Value)
    (harr : envFind st.vars arrName = Option.some (.arr xs)) :
    execute_statement w (fuel+1) st
        (.eachStmt (.some (.inOp (p0 :: p1 :: ps) arrName)) cond (body :: rest))
      = eachFold w fuel xs p0 p1 cond body (pairIndices xs.length) st
  ∧ (∀ p : Nat × Nat, p ∈ pairIndices xs.length ↔ (p.1 < p.2 ∧ p.2 < xs.length))
  ∧ List.Pairwise (fun p q : Nat × Nat => p.1 < q.1 ∨ (p.1 = q.1 ∧ p.2 < q.2))
      (pairIndices xs.length)
  ∧ (∀ i j v env2 st0,
      evaluate_expression_opt w
          (envSet (envSet st0.vars p0 (xs.getD i defaultValue))
            p1 (xs.getD j defaultValue)) cond = .ok (v, env2) →
      (v = .bool true →
        eachFold w fuel xs p0 p1 cond body [(i, j)] st0
          = execute_statement w fuel { st0 with vars := env2 } body)
      ∧ (v.isBool = false →
        eachFold w fuel xs p0 p1 cond body [(i, j)] st0 = .ok { st0 with vars := env2 })) := by
  refine ⟨?_, fun p => mem_pairIndices xs.length p, pairwise_pairIndices xs.length, ?_⟩
  · simp only [execute_statement, harr, Option.getD, cast_to_array,
      except_ok_bind, each_loop_i_eq_fold, pairIndices]
  · intro i j v env2 st0 hcv
    constructor
    · rintro rfl
      simp only [eachFold, hcv, except_ok_bind]
      cases hb : execute_statement w fuel { st0 with vars := env2 } body with
      | error e => simp [except_error_bind]
      | ok st2 => simp [eachFold, except_ok_bind]
    · intro hv
      cases v <;> simp_all [eachFold, hcv, except_ok_bind, Value.isBool]

/-- C6 witness: the loop equals the fold on a three-element array with
a meet condition comparing the two bound elements, and the per-pair
step runs the body on a true condition. -/
theorem claim_C6_each_pairs_witness :
    execute_statement emptyWorld (9+1)
        { vars := [("xs", .arr [.int 1, .int 2, .int 3])], result := defaultValue,
          returning := false, output := [] }
        (.eachStmt (.some (.inOp ["a", "b"] "xs"))
          (.some (.lt (.some (.identifier "a")) (.some (.identifier "b"))))
          [.block []])
      = eachFold emptyWorld 9 [.int 1, .int 2, .int 3] "a" "b"
          (.some (.lt (.some (.identifier "a")) (.some (.identifier "b"))))
          (.block []) (pairIndices 3)
          { vars := [("xs", .arr [.int 1, .int 2, .int 3])], result := defaultValue,
            returning := false, output := [] } :=
  (claim_C6_each_pairs emptyWorld 9
    { vars := [("xs", .arr [.int 1, .int 2, .int 3])], result := defaultValue,
      returning := false, output := [] }
    "a" "b" "xs" [] (.some (.lt (.some (.identifier "a")) (.some (.identifier "b"))))
    (.block []) [] [.int 1, .int 2, .int 3] rfl).1

/-- C7: array access through a bracket succeeds exactly on indices
inside the bounds, failing on a negative index and on an index at or
past the length, while dot access with a negative integer index
returns the null value without failing.  The array is bound in the
environment and the index is a CONSTANT_INT lexeme s with stoi s = i. -/
theorem claim_C7_array_indexing (w : World) (env : Env) (xs : List Value)
    (i : Int) (s : String)
    (harr : envFind env "a" = Option.some (.arr xs)) (hs : stoi s = i) :
    (0 ≤ i → i.toNat < xs.length →
      evaluate_expression w env (.arrayAccess (.some (.identifier "a")) (.some (.constInt s)))
        = .ok (xs.getD i.toNat defaultValue, env))
  ∧ (i < 0 →
      evaluate_expression w env (.arrayAccess (.some (.identifier "a")) (.some (.constInt s)))
        = .error (.negativeArrayIndex i))
  ∧ (0 ≤ i → xs.length ≤ i.toNat →
      evaluate_expression w env (.arrayAccess (.some (.identifier "a")) (.some (.constInt s)))
        = .error (.arrayIndexOutOfBounds i.toNat xs.length))
  ∧ (i < 0 →
      evaluate_expression w env (.dot (.some (.identifier "a")) (.some (.constInt s)))
        = .ok (NULL_VALUE, env)) := by
  refine ⟨?_, ?_, ?_, ?_⟩
  · intro h0 hlt
    simp [evaluate_expression, evaluate_expression_opt, harr, hs,
      get_array_element, cast_to_array, show ¬ i < 0 by omega, hlt,
      List.getD_eq_getElem, except_ok_bind, except_error_bind]
  · intro hneg
    simp [evaluate_expression, evaluate_expression_opt, harr, hs, hneg,
      except_ok_bind, except_error_bind]
  · intro h0 hge
    simp [evaluate_expression, evaluate_expression_opt, harr, hs,
      get_array_element, cast_to_array, show ¬ i < 0 by omega,
      show ¬ i.toNat < xs.length by omega, except_ok_bind, except_error_bind]
  · intro hneg
    simp [evaluate_expression, evaluate_address_index, harr, hs, hneg,
      except_ok_bind, except_error_bind]

/-- C7 witness: a one-element array with index 0 (in bounds), index 1
(out of bounds), and dot index minus one (null value). -/
theorem claim_C7_array_indexing_witness :
    evaluate_expression emptyWorld [("a", .arr [.int 7])]
        (.arrayAccess (.some (.identifier "a")) (.some (.constInt "0")))
      = .ok (.int 7, [("a", .arr [.int 7])])
  ∧ evaluate_expression emptyWorld [("a", .arr [.int 7])]
        (.arrayAccess (.some (.identifier "a")) (.some (.constInt "1")))
      = .error (.arrayIndexOutOfBounds 1 1)
  ∧ evaluate_expression emptyWorld [("a", .arr [.int 7])]
        (.dot (.some (.identifier "a")) (.some (.constInt "-1")))
      = .ok (NULL_VALUE, [("a", .arr [.int 7])]) := by
  refine ⟨?_, ?_, ?_⟩
  · exact (claim_C7_array_indexing emptyWorld [("a", .arr [.int 7])] [.int 7] 0 "0"
      rfl rfl).1 (by omega) (by simp)
  · exact (claim_C7_array_indexing emptyWorld [("a", .arr [.int 7])] [.int 7] 1 "1"
      rfl rfl).2.2.1 (by omega) (by simp)
  · exact (claim_C7_array_indexing emptyWorld [("a", .arr [.int 7])] [.int 7] (-1) "-1"
      rfl rfl).2.2.2 (by omega)

/-- C8: the fetch operator with an identifier target and a string URL.
When json parsing of the fetched body fails the operator evaluates to
the integer 0 and leaves the environment unchanged (first conjunct);
when it succeeds the decoded value is bound under the identifier and
returned (second); and when the network layer fails, http_get yields
the empty string, whose parse failure again gives integer 0 with no
binding (third). -/
theorem claim_C8_fetch_binding (w : World) (env : Env) (x url : String) :
    (w.parseJson (http_get w url) = Option.none →
      evaluate_expression w env (.curl (.some (.identifier x)) (.some (.constString url)))
        = .ok (.int 0, env))
  ∧ (∀ j, w.parseJson (http_get w url) = Option.some j →
      evaluate_expression w env (.curl (.some (.identifier x)) (.some (.constString url)))
        = .ok (json_to_value j, envSet env x (json_to_value j)))
  ∧ (w.net url = Option.none → w.parseJson "" = Option.none →
      evaluate_expression w env (.curl (.some (.identifier x)) (.some (.constString url)))
        = .ok (.int 0, env)) := by
  refine ⟨?_, ?_, ?_⟩
  · intro hp
    cases hx : envFind env x <;>
      simp [evaluate_expression, hx, hp, except_ok_bind]
  · intro j hp
    cases hx : envFind env x <;>
      simp [evaluate_expression, hx, hp, except_ok_bind]
  · intro hn hp
    have : http_get w url = "" := by simp [http_get, hn]
    cases hx : envFind env x <;>
      simp [evaluate_expression, hx, this, hp, except_ok_bind]

/-- C8 witness: a world whose only server answers 5 and whose parser
decodes it, and a world with no network, exercising the success and
the swallowed-failure branches. -/
theorem claim_C8_fetch_binding_witness :
    evaluate_expression ⟨fun _ => Option.some "5", fun s => if s = "5" then Option.some (.jint 5) else Option.none⟩
        [] (.curl (.some (.identifier "x")) (.some (.constString "http://h/p")))
      = .ok (.int 5, [("x", .int 5)])
  ∧ evaluate_expression emptyWorld []
        (.curl (.some (.identifier "x")) (.some (.constString "http://h/p")))
      = .ok (.int 0, []) := by
  constructor
  · have h := (claim_C8_fetch_binding
      ⟨fun _ => Option.some "5", fun s => if s = "5" then Option.some (.jint 5) else Option.none⟩
      [] "x" "http://h/p").2.1 (.jint 5) (by rfl)
    exact h
  · exact (claim_C8_fetch_binding emptyWorld [] "x" "http://h/p").2.2 rfl rfl

/-- C9: the null value is not a separate variant: NULL_VALUE and a
default constructed Value are both the integer 0, and the three
permissive reads the claim lists all produce the integer 0 exactly as
a read of a stored integer zero does: dot access on an object whose
key is absent, dot access on an array with a negative index, and a
read of an undefined identifier. -/
theorem claim_C9_null_is_zero (w : World) :
    NULL_VALUE = Value.int 0
  ∧ defaultValue = Value.int 0
  ∧ (∀ fields k, fields.lookup k = Option.none →
      get_object_field (.obj fields) k = .ok (.int 0))
  ∧ (∀ env name fields key, envFind env name = Option.some (.obj fields) →
      fields.lookup key = Option.none →
      evaluate_expression w env (.dot (.some (.identifier name)) (.some (.identifier key)))
        = .ok (.int 0, env))
  ∧ (∀ env name s i, envFind env name = Option.some (.arr []) → stoi s = i → i < 0 →
      evaluate_expression w env (.dot (.some (.identifier name)) (.some (.constInt s)))
        = .ok (.int 0, env))
  ∧ (∀ env name, envFind env name = Option.none →
      evaluate_expression w env (.identifier name) = .ok (.int 0, env))
  ∧ (∀ env name, envFind env name = Option.some (.int 0) →
      evaluate_expression w env (.identifier name) = .ok (.int 0, env)) := by
  refine ⟨rfl, rfl, ?_, ?_, ?_, ?_, ?_⟩
  · intro fields k h
    simp [get_object_field, h, defaultValue]
  · intro env name fields key hobj hk
    simp [evaluate_expression, evaluate_address_index, hobj, get_object_field, hk,
      defaultValue, except_ok_bind]
  · intro env name s i harr hs hneg
    simp [evaluate_expression, evaluate_address_index, harr, hs, hneg, NULL_VALUE,
      except_ok_bind]
  · intro env name h
    simp [evaluate_expression, h]
  · intro env name h
    simp [evaluate_expression, h]

/-- C9 witness: the permissive reads at concrete inputs all coincide
with the stored-zero read. -/
theorem claim_C9_null_is_zero_witness :
    get_object_field (.obj [("k", .int 9)]) "missing" = .ok (.int 0)
  ∧ evaluate_expression emptyWorld [("o", .obj [("k", .int 9)])]
        (.dot (.some (.identifier "o")) (.some (.identifier "missing")))
      = .ok (.int 0, [("o", .obj [("k", .int 9)])])
  ∧ evaluate_expression emptyWorld [("e", .arr [])]
        (.dot (.some (.identifier "e")) (.some (.constInt "-2")))
      = .ok (.int 0, [("e", .arr [])])
  ∧ evaluate_expression emptyWorld [] (.identifier "ghost") = .ok (.int 0, [])
  ∧ evaluate_expression emptyWorld [("z", .int 0)] (.identifier "z")
      = .ok (.int 0, [("z", .int 0)]) := by
  refine ⟨?_, ?_, ?_, ?_, ?_⟩
  · exact (claim_C9_null_is_zero emptyWorld).2.2.1 [("k", .int 9)] "missing" rfl
  · exact (claim_C9_null_is_zero emptyWorld).2.2.2.1 [("o", .obj [("k", .int 9)])] "o"
      [("k", .int 9)] "missing" rfl rfl
  · exact (claim_C9_null_is_zero emptyWorld).2.2.2.2.1 [("e", .arr [])] "e" "-2" (-2)
      rfl rfl (by omega)
  · exact (claim_C9_null_is_zero emptyWorld).2.2.2.2.2.1 [] "ghost" rfl
  · exact (claim_C9_null_is_zero emptyWorld).2.2.2.2.2.2 [("z", .int 0)] "z" rfl

/-- C10: a bare return is parsed with no expression (first conjunct)
and executing it is a no-op: the state, including the result slot and
the returning flag, is unchanged (second), so a block containing it
simply continues with the following statements (third). -/
theorem claim_C10_bare_return_noop :
    parse_statement 50 [⟨.KEYWORD_RETURN, "return"⟩, ⟨.SEPARATOR_SEMICOLON, ";"⟩]
      = .ok (.returnStmt .none, [])
  ∧ (∀ w fuel st, execute_statement w (fuel+1) st (.returnStmt .none) = .ok st)
  ∧ (∀ w fuel st rest, st.returning = false →
      execute_block w (fuel+1) st (.returnStmt .none :: rest)
        = execute_block w (fuel+1) st rest) := by
  refine ⟨rfl, ?_, ?_⟩
  · intro w fuel st
    simp [execute_statement]
  · intro w fuel st rest h
    simp [execute_block, execute_statement, except_ok_bind, h]

/-- C10 witness: the block continuation applied to a concrete state
and trailing statement. -/
theorem claim_C10_bare_return_noop_witness :
    initExecState.returning = false
  ∧ execute_block emptyWorld (5+1) initExecState
        [.returnStmt .none, .returnStmt (.some (.constInt "3"))]
      = execute_block emptyWorld (5+1) initExecState [.returnStmt (.some (.constInt "3"))] :=
  ⟨rfl, claim_C10_bare_return_noop.2.2 emptyWorld 5 initExecState
    [.returnStmt (.some (.constInt "3"))] rfl⟩

end Glue
